import Mathlib

/-!
Verification of the EXPOsan repository's natural-language specification against
its source code, via a shallow embedding in Lean 4.

Numbers that the Python code manipulates as floats are modelled as exact
rationals (`ℚ`); Python exceptions are modelled with `Except`; a pandas
`NaN` cell is modelled as `Option.none`.  Each definition is translated from
the source file named in its doc comment, except for a few definitions whose
doc comments start with `Modelled from the spec:`, which model behaviour of
external collaborator frameworks (qsdsan/biosteam, the bsm1 module) that the
repository calls but whose code is not part of the analysed sources.
-/

set_option autoImplicit false

/-! ## `exposan/cas/__init__.py` — module attribute protocol (claim C10) -/

/-- A Python runtime value as far as the `cas` module protocol is concerned:
either Python `None` or some other object. -/
inductive PyVal where
  | pynone
  | obj (tag : String)
  deriving DecidableEq

/-- Attribute access on the `exposan.cas` module
(`src/exposan/cas/__init__.py`, lines 57-60).  Python first looks the name up
in the module dictionary; only when it is absent is module-level
`__getattr__` invoked.  The source's `__getattr__` raises `AttributeError`
when `not _components_loaded or not _system_loaded`, and otherwise falls off
the end of the function body, implicitly returning `None` — so the attribute
access succeeds with value `None`. -/
def cas_module_getattr (components_loaded system_loaded : Bool)
    (moduleDict : String → Option PyVal) (name : String) : Except String PyVal :=
  match moduleDict name with
  | Option.some v => Except.ok v
  | Option.none =>
    if !components_loaded || !system_loaded then
      Except.error "module \"exposan.cas\" not yet loaded, load module with `exposan.cas.load()`."
    else
      Except.ok PyVal.pynone

/-! ## `src/tests/test_bsm1.py` — BSM1 benchmark scenario (claim C8) -/

/-- `numpy.testing.assert_allclose` with absolute tolerance 0 (its default)
and the given relative tolerance: `|actual - desired| <= rtol * |desired|`. -/
def assert_allclose (actual desired rtol : ℚ) : Prop :=
  |actual - desired| ≤ rtol * |desired|

/-- The observables of the simulated BSM1 system that `test_bsm1` inspects:
effluent soluble substrate, effluent COD, recycle (RAS) heterotroph biomass,
recycle TSS, and whether the effluent stream is empty. -/
structure BSM1State where
  S_S_eff : ℚ
  COD_eff : ℚ
  X_BH_ras : ℚ
  TSS_ras : ℚ
  eff_isempty : Bool
  deriving DecidableEq

/-- Modelled from the spec: the `exposan.bsm1` module (its `load()` and the
dynamic simulation over the 50-time-unit horizon) is not among the analysed
sources — only its test `src/tests/test_bsm1.py` is.  The spec's end-to-end
scenario states the simulated state reached after
`sys.simulate(t_span=(0,50), method='BDF')`: effluent soluble substrate
≈ 0.895, recycle biomass ≈ 4994.3, effluent COD ≈ 47.5, recycle TSS ≈ 6377.9,
with a non-empty effluent stream. -/
def bsm1_simulated : BSM1State :=
  { S_S_eff := 895/1000
    COD_eff := 475/10
    X_BH_ras := 49943/10
    TSS_ras := 63779/10
    eff_isempty := false }

/-- The assertions of `test_bsm1` (`src/tests/test_bsm1.py`, lines 23-27):
non-empty effluent, then four `assert_allclose` checks at `rtol=1e-2`. -/
def test_bsm1 (st : BSM1State) : Prop :=
  st.eff_isempty = false ∧
  assert_allclose st.S_S_eff (895/1000) (1/100) ∧
  assert_allclose st.X_BH_ras (49943/10) (1/100) ∧
  assert_allclose st.COD_eff (475/10) (1/100) ∧
  assert_allclose st.TSS_ras (63779/10) (1/100)

/-! ## `exposan/htl/analyses/geospatial_analysis.py` — driving distances (claim C4) -/

/-- One row of the `WRRF_input` table as the distance-filling loop sees it:
the two location strings and the (possibly missing, i.e. NaN) driving
distance merged in from the old Seiple-based dataset. -/
structure WRRFDistRow where
  WRRF_location : String
  refinery_location : String
  real_distance_km : Option ℚ
  deriving DecidableEq

/-- The distance-filling loop of `geospatial_analysis.py`, lines 266-279.
`WRRF_input_without_distance` restricts to rows whose `real_distance_km` is
NaN (`Option.none` here); for each such row the loop tries
`gmaps.distance_matrix(...)['rows'][0]['elements'][0]['distance']['value']/1000`
and, on `KeyError` (the Google response for that record carries no distance
value, modelled as the lookup function returning `Option.none`), records
`np.nan` for that record and moves on.  Rows that already have a distance are
not touched. -/
def fill_real_distances (lookup : String → String → Option ℚ)
    (rows : List WRRFDistRow) : List WRRFDistRow :=
  rows.map fun r =>
    if r.real_distance_km.isNone then
      match lookup r.WRRF_location r.refinery_location with
      | Option.some meters => { r with real_distance_km := Option.some (meters / 1000) }
      | Option.none => { r with real_distance_km := Option.none }
    else r

/-! ## `exposan/htl/analyses/geospatial_analysis.py` — join-key assertions (claim C7) -/

/-- The number of duplicated rows in a list of join keys, as computed by
pandas' `.duplicated().sum()`: every occurrence of a key after its first
counts once. -/
def dup_count {K : Type} [DecidableEq K] (keys : List K) : Nat :=
  keys.length - keys.dedup.length

/-- pandas `DataFrame.merge(..., how='left')` on an explicit key column: each
left row is paired with every matching right row, or with a missing (NaN)
payload when no right row matches. -/
def left_merge {K A B : Type} [DecidableEq K]
    (t1 : List (K × A)) (t2 : List (K × B)) : List (K × A × Option B) :=
  t1.flatMap fun r =>
    let hits := t2.filter fun r2 => decide (r2.1 = r.1)
    if hits.isEmpty then [(r.1, r.2, Option.none)]
    else hits.map fun m => (r.1, r.2, Option.some m.2)

/-- pandas `pd.merge` with its default `how='inner'`: each left row paired
with every matching right row; unmatched rows are dropped. -/
def inner_merge {K A B : Type} [DecidableEq K]
    (t1 : List (K × A)) (t2 : List (K × B)) : List (K × A × B) :=
  t1.flatMap fun r =>
    (t2.filter fun r2 => decide (r2.1 = r.1)).map fun m => (r.1, r.2, m.2)

/-- `geospatial_analysis.py`, lines 258-262: assert that the old
Seiple-based dataset has no duplicated `['UID','FACILITY_CODE','site_id']`
rows, assert that `WRRF_input` has no duplicated
`['CWNS','facility_code','site_id']` rows, and only then left-merge
`WRRF_input` with the old dataset.  A failed `assert` raises before the
merge runs. -/
def merge_with_old_dataset {K A B : Type} [DecidableEq K]
    (WRRF_input : List (K × A))
    (old_dataset_based_on_Seiple : List (K × B)) :
    Except String (List (K × A × Option B)) :=
  if dup_count (old_dataset_based_on_Seiple.map Prod.fst) ≠ 0 then
    Except.error "AssertionError"
  else if dup_count (WRRF_input.map Prod.fst) ≠ 0 then
    Except.error "AssertionError"
  else
    Except.ok (left_merge WRRF_input old_dataset_based_on_Seiple)

/-- `geospatial_analysis.py`, lines 751-755: assert that `input_data` and
the concatenated `output_result` each have no duplicated
`['CWNS','facility_code']` rows, then left-merge them. -/
def merge_integrated_result {K A B : Type} [DecidableEq K]
    (input_data : List (K × A)) (output_result : List (K × B)) :
    Except String (List (K × A × Option B)) :=
  if dup_count (input_data.map Prod.fst) ≠ 0 then
    Except.error "AssertionError"
  else if dup_count (output_result.map Prod.fst) ≠ 0 then
    Except.error "AssertionError"
  else
    Except.ok (left_merge input_data output_result)

/-- `geospatial_analysis.py`, line 134:
`electricity = pd.merge(elec, US, left_on='name', right_on='NAME')` — an
inner merge of the state electricity-price table with the states table,
performed with no duplicate-key assertion on either input. -/
def merge_electricity {A B : Type}
    (elec : List (String × A)) (US : List (String × B)) : List (String × A × B) :=
  inner_merge elec US

/-! ## `exposan/htl/analyses/geospatial_analysis.py` — batch evaluation loop (claim C1) -/

/-- An exception raised while building/simulating one facility's flowsheet. -/
inductive SimFailure where
  | convergence
  deriving DecidableEq

/-- What the externally solved system exposes to the loop body after
`create_geospatial_system(...)` returns for one facility: the LCA
GlobalWarming total, the TEA net present value, and the `barrel` (oil BPD)
second return value. -/
structure GeoSimOut where
  GlobalWarming : ℚ
  NPV : ℚ
  barrel : ℚ
  deriving DecidableEq

/-- Equality of modelled exception outcomes is decidable. -/
instance instDecEqExcept {ε α : Type} [DecidableEq ε] [DecidableEq α] :
    DecidableEq (Except ε α) := fun x y =>
  match x, y with
  | Except.ok a, Except.ok b =>
    decidable_of_iff (a = b) ⟨fun h => h ▸ rfl, fun h => Except.ok.inj h⟩
  | Except.ok _, Except.error _ => isFalse (fun h => Except.noConfusion h)
  | Except.error _, Except.ok _ => isFalse (fun h => Except.noConfusion h)
  | Except.error e, Except.error f =>
    decidable_of_iff (e = f) ⟨fun h => h ▸ rfl, fun h => Except.error.inj h⟩

/-- One row of `WRRF_input` as the decarbonization batch loop
(`geospatial_analysis.py`, lines 678-726) consumes it.  `sim` is the outcome
of `create_geospatial_system(...)` together with the attached TEA/LCA for
this row; that function lives in `exposan.htl` outside the analysed sources,
so its outcome (a converged system, or a raised exception on a
non-convergent flowsheet) is carried as row data. -/
structure WRRFRow where
  CWNS : Int
  facility_code : Int
  biosolids_emission : ℚ
  total_emission : ℚ
  sim : Except SimFailure GeoSimOut
  deriving DecidableEq

/-- The per-facility record appended to the result lists by one iteration of
the batch loop.  `USD_decarbonization = Option.none` models the `np.nan`
recorded when `CO2_reduction_result <= 0`. -/
structure GeoRowResult where
  CWNS : Int
  facility_code : Int
  CO2_reduction : ℚ
  sludge_CO2_reduction_ratio : ℚ
  WRRF_CO2_reduction_ratio : ℚ
  NPV : ℚ
  USD_decarbonization : Option ℚ
  oil_BPD : ℚ
  deriving DecidableEq

/-- The body of the batch loop (`geospatial_analysis.py`, lines 681-720):
build and simulate the system (an exception propagates — the body has no
`try`/`except`), compute `CO2_reduction_result = -lca GlobalWarming`, the two
emission ratios, and `USD_per_tonne_CO2_reduction`, which alone is guarded:
`np.nan` unless `CO2_reduction_result > 0`. -/
def processGeoRow (r : WRRFRow) : Except SimFailure GeoRowResult := do
  let s ← r.sim
  let CO2_reduction_result := -s.GlobalWarming
  let sludge_ratio := CO2_reduction_result / r.biosolids_emission / 365 / 30
  let WRRF_ratio := CO2_reduction_result / r.total_emission / 365 / 30
  let USD_per_tonne_CO2_reduction : Option ℚ :=
    if CO2_reduction_result > 0 then Option.some (-s.NPV / CO2_reduction_result * 1000)
    else Option.none
  Except.ok
    { CWNS := r.CWNS
      facility_code := r.facility_code
      CO2_reduction := CO2_reduction_result
      sludge_CO2_reduction_ratio := sludge_ratio
      WRRF_CO2_reduction_ratio := WRRF_ratio
      NPV := s.NPV
      USD_decarbonization := USD_per_tonne_CO2_reduction
      oil_BPD := s.barrel }

/-- The batch loop `for i in range(...)` over the rows of `WRRF_input`
(`geospatial_analysis.py`, lines 678-726): each iteration runs the body and
appends its record; an exception raised in any iteration propagates out of
the loop (there is no `try`/`except` around the body), abandoning the batch. -/
def runGeoBatch : List WRRFRow → Except SimFailure (List GeoRowResult)
  | [] => Except.ok []
  | r :: rs => do
    let x ← processGeoRow r
    let xs ← runGeoBatch rs
    Except.ok (x :: xs)

/-- A facility row whose simulation converges. -/
def geoRowOK : WRRFRow :=
  { CWNS := 17000112001, facility_code := 1, biosolids_emission := 2, total_emission := 5,
    sim := Except.ok { GlobalWarming := -3, NPV := -10, barrel := 7 } }

/-- A facility row whose flowsheet fails to converge: building/simulating it
raises. -/
def geoRowFail : WRRFRow :=
  { CWNS := 17000112002, facility_code := 2, biosolids_emission := 2, total_emission := 5,
    sim := Except.error SimFailure.convergence }

/-- A second convergent facility row, placed after the failing one. -/
def geoRowOK2 : WRRFRow :=
  { CWNS := 17000112003, facility_code := 3, biosolids_emission := 4, total_emission := 9,
    sim := Except.ok { GlobalWarming := 6, NPV := 20, barrel := 1 } }

/-! ## `exposan/metab/systems.py` and `exposan/co2_sorbent/systems.py` —
flowsheet construction (claims C3 and C9) -/

/-- The three reactor classes of `reactor_classes`
(`exposan/metab/systems.py`, lines 128-132). -/
inductive RType where
  | UASB
  | FB
  | PB
  deriving DecidableEq

/-- The reactor-class key as it appears in the flowsheet ID. -/
def RType.toStr : RType → String
  | RType.UASB => "UASB"
  | RType.FB => "FB"
  | RType.PB => "PB"

/-- The keyword arguments of `create_system`
(`exposan/metab/systems.py`, lines 144-147), with their source defaults.
`flowsheet=None` is modelled by passing the registry state explicitly. -/
structure MetabConfig where
  n_stages : Nat := 1
  reactor_type : RType := RType.UASB
  gas_extraction : String := "P"
  lifetime : ℚ := 30
  discount_rate : ℚ := 1/10
  Q : ℚ := 5
  inf_concs : Option (List (String × ℚ)) := Option.none
  tot_HRT : ℚ := 12
  deriving DecidableEq

/-- `default_inf_concs` (`exposan/metab/systems.py`, lines 37-63), with
`C_mw = 12.0107` and `N_mw = 14.0067`. -/
def default_inf_concs : List (String × ℚ) :=
  [("S_su", 3), ("S_aa", 6/10), ("S_fa", 4/10), ("S_va", 4/10), ("S_bu", 4/10),
   ("S_pro", 4/10), ("S_ac", 4/10), ("S_h2", 5/1000000000), ("S_ch4", 5/1000000),
   ("S_IC", (4/100) * (120107/10000)), ("S_IN", (1/100) * (140067/10000)),
   ("S_I", 2/100), ("X_c", 1/10), ("X_ch", 3/10), ("X_pr", 5/10), ("X_li", 25/100),
   ("X_aa", 1/1000), ("X_fa", 1/1000), ("X_c4", 1/1000), ("X_pro", 1/1000),
   ("X_ac", 1/1000), ("X_h2", 1/1000), ("X_I", 25/1000), ("S_cat", 4/100),
   ("S_an", 2/100)]

/-- The constructor arguments of one anaerobic reactor as `create_system`
passes them (`exposan/metab/systems.py`, lines 172-175, 187-196, 202-209).
Port references for anonymous streams are kept as the source's textual
shorthand (`''`, `R1-1`, ...). -/
structure ReactorSpec where
  ID : String
  ins : List String
  outs : List String
  split : Option (List ℚ) := Option.none
  V_liq : ℚ
  V_gas : ℚ
  T : ℚ
  pH_ctrl : Option ℚ := Option.none
  fixed_headspace_P : Option Bool := Option.none
  headspace_P : Option ℚ := Option.none
  equipment : List String := []
  F_BM_default : ℚ := 1
  lifetime : ℚ
  deriving DecidableEq

/-- What one `create_system` call builds: the flowsheet/system IDs, the
influent specification (`set_flow_by_concentration(Q, inf_concs)`), the
reactors with their constructor arguments, the system path, the dynamic
tracker, and the degassed system wrapping `DMe`.  (Reactor initial
concentrations are set deterministically from the module constant `C0_bulk`
by `set_init_concs` and are not repeated here.) -/
structure MetabSysDesc where
  sys_ID : String
  inf_spec : ℚ × List (String × ℚ)
  reactors : List ReactorSpec
  path : List String
  dynamic_tracker : List String
  sys_dg_ID : String
  dg_path : List String
  deriving DecidableEq

/-- The ID registries of one qsdsan flowsheet: streams, units and systems
register in separate namespaces. -/
structure FlowsheetReg where
  streams : List String
  units : List String
  systems : List String
  deriving DecidableEq

/-- A freshly created (or cleared) flowsheet registry. -/
def clearedReg : FlowsheetReg := ⟨[], [], []⟩

/-- Modelled from the spec: registration of an ID in a qsdsan flowsheet
registry (the registry lives in the external framework; spec §4.1 requires
guarding against duplicate registration, so registering an already-present
ID fails). -/
def registerID (reg : List String) (id : String) : Except String (List String) :=
  if id ∈ reg then Except.error ("duplicate registration: " ++ id)
  else Except.ok (reg ++ [id])

/-- Register a list of IDs in order. -/
def registerAll (reg : List String) (ids : List String) : Except String (List String) :=
  ids.foldlM registerID reg

/-- `create_system` (`exposan/metab/systems.py`, lines 144-225).  The
flowsheet named `f'{reactor_type}{n_stages}{gas_extraction}'` is populated
with the streams `inf`/`eff`/`eff_dg`/`bge`, the equipment `IST`/`GH`, and
then, depending on the configuration: a single reactor `R1` with
`V_liq=Q*tot_HRT`, `V_gas=Q*tot_HRT*0.1`; or two reactors `R1`/`R2` with
`V_liq=Q*tot_HRT/12` and `Q*tot_HRT*11/12` (plus `DMs` in the `'M'`
gas-extraction mode, and `fixed_headspace_P` selected by `'P'` vs other
modes).  Every branch finishes with the effluent degassing membrane `DMe`
and the wrapping system `f'{sys_ID}_edg'`.  Stream, unit and system IDs
register in their flowsheet registries as they are constructed. -/
def create_system (cfg : MetabConfig) (fs : FlowsheetReg) :
    Except String (MetabSysDesc × FlowsheetReg) :=
  let sys_ID := cfg.reactor_type.toStr ++ toString cfg.n_stages ++ cfg.gas_extraction
  let inf_spec := (cfg.Q, cfg.inf_concs.getD default_inf_concs)
  if cfg.n_stages = 1 then do
    let s ← registerAll fs.streams ["inf", "eff", "eff_dg", "bge", "bg"]
    let u ← registerAll fs.units ["IST", "GH", "R1", "DMe"]
    let y ← registerAll fs.systems [sys_ID, sys_ID ++ "_edg"]
    Except.ok
      ({ sys_ID := sys_ID
         inf_spec := inf_spec
         reactors := [
           { ID := "R1", ins := ["inf"], outs := ["bg", "eff"],
             V_liq := cfg.Q * cfg.tot_HRT, V_gas := cfg.Q * cfg.tot_HRT * 0.1,
             T := 273.15 + 35, equipment := ["IST", "GH"], lifetime := cfg.lifetime }]
         path := ["R1"]
         dynamic_tracker := ["R1", "eff", "bg"]
         sys_dg_ID := sys_ID ++ "_edg"
         dg_path := [sys_ID, "DMe"] }, ⟨s, u, y⟩)
  else if cfg.gas_extraction = "M" then do
    let s ← registerAll fs.streams ["inf", "eff", "eff_dg", "bge", "bg1", "bg2", "bgs"]
    let u ← registerAll fs.units ["IST", "GH", "R1", "DMs", "R2", "DMe"]
    let y ← registerAll fs.systems [sys_ID, sys_ID ++ "_edg"]
    Except.ok
      ({ sys_ID := sys_ID
         inf_spec := inf_spec
         reactors := [
           { ID := "R1", ins := ["inf", ""], outs := ["bg1", "", ""],
             split := Option.some [400, 1],
             V_liq := cfg.Q * cfg.tot_HRT / 12, V_gas := cfg.Q * cfg.tot_HRT / 12 * 0.1,
             T := 273.15 + 35, pH_ctrl := Option.some (58/10), lifetime := cfg.lifetime },
           { ID := "R2", ins := ["R1-2"], outs := ["bg2", "eff"],
             V_liq := cfg.Q * cfg.tot_HRT * 11 / 12,
             V_gas := cfg.Q * cfg.tot_HRT * 11 / 12 * 0.1,
             T := 273.15 + 22, pH_ctrl := Option.some (72/10),
             equipment := ["IST", "GH"], lifetime := cfg.lifetime }]
         path := ["R1", "DMs", "R2"]
         dynamic_tracker := ["R1", "R2", "eff", "bg1", "bgs", "bg2"]
         sys_dg_ID := sys_ID ++ "_edg"
         dg_path := [sys_ID, "DMe"] }, ⟨s, u, y⟩)
  else do
    let s ← registerAll fs.streams ["inf", "eff", "eff_dg", "bge", "bg1", "bg2"]
    let u ← registerAll fs.units ["IST", "GH", "R1", "R2", "DMe"]
    let y ← registerAll fs.systems [sys_ID, sys_ID ++ "_edg"]
    Except.ok
      ({ sys_ID := sys_ID
         inf_spec := inf_spec
         reactors := [
           { ID := "R1", ins := ["inf"], outs := ["bg1", ""],
             V_liq := cfg.Q * cfg.tot_HRT / 12, V_gas := cfg.Q * cfg.tot_HRT / 12 * 0.1,
             T := 273.15 + 35, pH_ctrl := Option.some (58/10),
             fixed_headspace_P := Option.some (decide (cfg.gas_extraction ≠ "P")),
             headspace_P := Option.some (1/10), lifetime := cfg.lifetime },
           { ID := "R2", ins := ["R1-1"], outs := ["bg2", "eff"],
             V_liq := cfg.Q * cfg.tot_HRT * 11 / 12,
             V_gas := cfg.Q * cfg.tot_HRT * 11 / 12 * 0.1,
             T := 273.15 + 22, pH_ctrl := Option.some (72/10),
             equipment := ["IST", "GH"], lifetime := cfg.lifetime }]
         path := ["R1", "R2"]
         dynamic_tracker := ["R1", "R2", "eff", "bg1", "bg2"]
         sys_dg_ID := sys_ID ++ "_edg"
         dg_path := [sys_ID, "DMe"] }, ⟨s, u, y⟩)

/-- What `create_system_A` (`exposan/co2_sorbent/systems.py`, lines 37-145)
builds: feed streams with their fixed compositions (kg/h), the unit train,
and the system with its operating hours. -/
structure ALFSysDesc where
  flowsheet_ID : String
  feed_streams : List (String × List (String × ℚ))
  units : List String
  operating_hours : ℚ
  sys_ID : String
  deriving DecidableEq

/-- `create_system_A` (`exposan/co2_sorbent/systems.py`, lines 37-145).
Lines 42-44 clear the `ALF_A` flowsheet and the LCA registries whenever a
previous call left them populated, so construction always starts from a
fresh registry; the streams and units are then built with fixed
compositions and parameters and assembled into `sys_ALF_A` with
`operating_hours=7920`. -/
def create_system_A (fs : FlowsheetReg) : Except String (ALFSysDesc × FlowsheetReg) :=
  let fs := if fs = clearedReg then fs else clearedReg
  do
    let s ← registerAll fs.streams
      ["aluminum_hydroxide", "water", "AlOH3_H2O", "formic_acid", "AlOH3_H2O_HCOOH",
       "ALF_solution", "ALF_mixed", "retentate", "permeate", "dryer_air",
       "natural_gas", "dryed_ALF", "hot_air", "emissions"]
    let u ← registerAll fs.units
      ["feed_mixer_1", "feed_mixer_2", "ALF_production", "ALF_crystallizer",
       "ALF_filter", "ALF_dryer"]
    let y ← registerAll fs.systems ["sys_ALF_A"]
    Except.ok
      ({ flowsheet_ID := "ALF_A"
         feed_streams := [
           ("aluminum_hydroxide", [("AlH3O3", 100)]),
           ("water", [("H2O", 100)]),
           ("formic_acid", [("HCOOH", 350), ("H2O", 100)])]
         units := ["feed_mixer_1", "feed_mixer_2", "ALF_production",
                   "ALF_crystallizer", "ALF_filter", "ALF_dryer"]
         operating_hours := 7920
         sys_ID := "sys_ALF_A" }, ⟨s, u, y⟩)

/-! ## `exposan/htl/system_PSA.py` — uncertainty harness table (claims C5, C6) -/

/-- Modelled from the spec: qsdsan's `Model.sample(N=..., rule='L')` (called
at `system_PSA.py` line 1591) lives in the external framework; per the spec
it draws a design matrix of size (samples × parameters).  `draw i j` is the
value the sampling rule assigns to parameter `j` in sample row `i`. -/
def sampleMatrix (nparams N : Nat) (draw : Nat → Nat → ℚ) : List (List ℚ) :=
  (List.range N).map fun i => (List.range nparams).map fun j => draw i j

/-- Modelled from the spec: for each sample row the harness "applies every
setter in a fixed order" before re-simulating. -/
def applySetters {σ : Type} (params : List (String × (ℚ → σ → σ)))
    (row : List ℚ) (s : σ) : σ :=
  (params.zip row).foldl (fun st pv => pv.1.2 pv.2 st) s

/-- Modelled from the spec: qsdsan's `Model.load_samples`/`Model.evaluate`
(`system_PSA.py` lines 1592-1594) re-simulate the flowsheet for every sample
row and record the metric values; the resulting `model.table` has one row
per sample, holding the sampled parameter values followed by the metric
values. -/
def evaluateModel {σ : Type} (params : List (String × (ℚ → σ → σ)))
    (metrics : List (σ → ℚ)) (simulate : σ → σ) (s0 : σ)
    (samples : List (List ℚ)) : List (List ℚ) :=
  samples.map fun row =>
    row ++ metrics.map fun m => m (simulate (applySetters params row s0))

/-- The quantile levels of `organize_results`
(`system_PSA.py`, line 1600): `[0, 0.05, 0.25, 0.5, 0.75, 0.95, 1]`. -/
def percentile_levels : List ℚ := [0, 0.05, 0.25, 0.5, 0.75, 0.95, 1]

/-- pandas `DataFrame.quantile` on one column with its default linear
interpolation: at level `q` over `n` sorted values, the virtual index is
`h = q*(n-1)` and the result interpolates between the values at `⌊h⌋` and
`⌈h⌉`.  An empty column has no quantile (NaN). -/
def quantileLin (xs : List ℚ) (q : ℚ) : Option ℚ :=
  match xs with
  | [] => Option.none
  | _ :: _ =>
    let s := xs.mergeSort (fun a b => decide (a ≤ b))
    let h : ℚ := q * ((xs.length : ℚ) - 1)
    let lo := (Int.floor h).toNat
    let hi := (Int.ceil h).toNat
    let a := s.getD lo 0
    let b := s.getD hi 0
    Option.some (a + (h - (lo : ℚ)) * (b - a))

/-- The columns of a row-major table. -/
def columnsOf (rows : List (List ℚ)) : List (List ℚ) :=
  (List.range ((rows.headD []).length)).map fun j => rows.map fun r => r.getD j 0

/-- The workbook written by `organize_results`: three `to_excel` calls into
one `pd.ExcelWriter`, with the percentile sheet indexed by quantile level. -/
structure UAWorkbook where
  parametersSheet : List (List ℚ)
  resultsSheet : List (List ℚ)
  percentilesSheet : List (ℚ × List (Option ℚ))
  sheetNames : List String
  deriving DecidableEq

/-- `organize_results(model, path)` (`system_PSA.py`, lines 1596-1604):
split `model.table` at `idx = len(model.parameters)` into the parameter
columns and the result columns, compute
`results.quantile([0, 0.05, 0.25, 0.5, 0.75, 0.95, 1])` per result column,
and write the three sheets `Parameters`, `Results`, `Percentiles`. -/
def organize_results (tbl : List (List ℚ)) (nparams : Nat) : UAWorkbook :=
  let parameters := tbl.map (List.take nparams)
  let results := tbl.map (List.drop nparams)
  let percentiles := percentile_levels.map fun q =>
    (q, (columnsOf results).map fun col => quantileLin col q)
  { parametersSheet := parameters
    resultsSheet := results
    percentilesSheet := percentiles
    sheetNames := ["Parameters", "Results", "Percentiles"] }

/-! ## `exposan/htl/system_PSA.py` — uncertainty-model parameters (claim C2) -/

/-- Every mutable attribute touched by a statically registered parameter
setter of the `system_PSA` uncertainty model (one constructor per distinct
`object.attribute` / stream-price target appearing in the setter bodies at
`system_PSA.py` lines 516-1299). -/
inductive UnitAttr where
  | WWTP_ww_2_dry_sludge
  | WWTP_sludge_moisture
  | WWTP_sludge_dw_ash
  | WWTP_sludge_afdw_lipid
  | WWTP_sludge_afdw_protein
  | WWTP_lipid_2_C
  | WWTP_protein_2_C
  | WWTP_carbo_2_C
  | WWTP_C_2_H
  | WWTP_protein_2_N
  | WWTP_N_2_P
  | WWTP_operation_hours
  | sysPSA_operating_hours
  | H1_U
  | HTL_lipid_2_biocrude
  | HTL_protein_2_biocrude
  | HTL_carbo_2_biocrude
  | HTL_protein_2_gas
  | HTL_carbo_2_gas
  | HTL_biocrude_C_slope
  | HTL_biocrude_C_intercept
  | HTL_biocrude_N_slope
  | HTL_biocrude_H_slope
  | HTL_biocrude_H_intercept
  | HTL_HTLaqueous_C_slope
  | HTL_TOC_TC
  | HTL_biochar_C_slope
  | HTL_biocrude_moisture_content
  | HTL_biochar_P_recovery_ratio
  | AcidEx_acid_vol
  | AcidEx_P_acid_recovery_ratio
  | StruPre_target_pH
  | StruPre_P_pre_recovery_ratio
  | CHG_WHSV
  | CHG_catalyst_lifetime
  | CHG_gas_C_2_total_C
  | MemDis_influent_pH
  | MemDis_target_pH
  | MemDis_m2_2_m3
  | MemDis_Dm
  | MemDis_porosity
  | MemDis_thickness
  | MemDis_tortuosity
  | MemDis_Ka
  | MemDis_capacity
  | HT_WHSV
  | HT_catalyst_lifetime
  | HT_hydrogen_rxned_to_biocrude
  | HT_PSA_efficiency
  | HT_hydrogen_excess
  | HT_hydrocarbon_ratio
  | HC_WHSV
  | HC_catalyst_lifetime
  | HC_hydrogen_rxned_to_heavy_oil
  | HC_hydrogen_excess
  | HC_hydrocarbon_ratio
  | HTL_CAPEX_factor
  | CHG_CAPEX_factor
  | HT_CAPEX_factor
  | CHP_unit_CAPEX
  | tea_IRR
  | H2SO4_Tank_ins0_price
  | StruPre_ins1_price
  | StruPre_ins2_price
  | StruPre_ins3_price
  | StruPre_outs0_price
  | RSP1_ins0_price
  | MemDis_ins2_price
  | MemDis_outs0_price
  | MemDis_membrane_price
  | CHG_ins1_price
  | CHP_ins1_price
  | HT_ins2_price
  | HC_ins2_price
  | FuelMixer_gasoline_price
  | FuelMixer_diesel_price
  | PowerUtility_price
  deriving DecidableEq

/-- The mutable state the registered setters act on: the scalar unit/stream
/system/TEA attributes enumerated by `UnitAttr`, plus the LCA
characterization-factor table `ImpactItem.CFs` keyed by (item, indicator)
that the `set_LCA` family (lines 1305-1318) mutates. -/
structure HTLState where
  attrs : UnitAttr → ℚ
  CFs : String × String → ℚ

/-- `WWTP.ww_2_dry_sludge=i` (`system_PSA.py`, parameter `ww_2_dry_sludge`). -/
def set_ww_2_dry_sludge (i : ℚ) (s : HTLState) : HTLState :=
  { s with attrs := fun a => if a = UnitAttr.WWTP_ww_2_dry_sludge then i else s.attrs a }

/-- `WWTP.sludge_moisture=i` (`system_PSA.py`, parameter `sludge_moisture`). -/
def set_WWTP_sludge_moisture (i : ℚ) (s : HTLState) : HTLState :=
  { s with attrs := fun a => if a = UnitAttr.WWTP_sludge_moisture then i else s.attrs a }

/-- `WWTP.sludge_dw_ash=i` (`system_PSA.py`, parameter `sludge_dw_ash`). -/
def set_sludge_dw_ash (i : ℚ) (s : HTLState) : HTLState :=
  { s with attrs := fun a => if a = UnitAttr.WWTP_sludge_dw_ash then i else s.attrs a }

/-- `WWTP.sludge_afdw_lipid=i` (`system_PSA.py`, parameter `sludge_afdw_lipid`). -/
def set_sludge_afdw_lipid (i : ℚ) (s : HTLState) : HTLState :=
  { s with attrs := fun a => if a = UnitAttr.WWTP_sludge_afdw_lipid then i else s.attrs a }

/-- `WWTP.sludge_afdw_protein=i` (`system_PSA.py`, parameter `sludge_afdw_protein`). -/
def set_sludge_afdw_protein (i : ℚ) (s : HTLState) : HTLState :=
  { s with attrs := fun a => if a = UnitAttr.WWTP_sludge_afdw_protein then i else s.attrs a }

/-- `WWTP.lipid_2_C=i` (`system_PSA.py`, parameter `lipid_2_C`). -/
def set_lipid_2_C (i : ℚ) (s : HTLState) : HTLState :=
  { s with attrs := fun a => if a = UnitAttr.WWTP_lipid_2_C then i else s.attrs a }

/-- `WWTP.protein_2_C=i` (`system_PSA.py`, parameter `protein_2_C`). -/
def set_protein_2_C (i : ℚ) (s : HTLState) : HTLState :=
  { s with attrs := fun a => if a = UnitAttr.WWTP_protein_2_C then i else s.attrs a }

/-- `WWTP.carbo_2_C=i` (`system_PSA.py`, parameter `carbo_2_C`). -/
def set_carbo_2_C (i : ℚ) (s : HTLState) : HTLState :=
  { s with attrs := fun a => if a = UnitAttr.WWTP_carbo_2_C then i else s.attrs a }

/-- `WWTP.C_2_H=i` (`system_PSA.py`, parameter `C_2_H`). -/
def set_C_2_H (i : ℚ) (s : HTLState) : HTLState :=
  { s with attrs := fun a => if a = UnitAttr.WWTP_C_2_H then i else s.attrs a }

/-- `WWTP.protein_2_N=i` (`system_PSA.py`, parameter `protein_2_N`). -/
def set_protein_2_N (i : ℚ) (s : HTLState) : HTLState :=
  { s with attrs := fun a => if a = UnitAttr.WWTP_protein_2_N then i else s.attrs a }

/-- `WWTP.N_2_P=i` (`system_PSA.py`, parameter `N_2_P`). -/
def set_N_2_P (i : ℚ) (s : HTLState) : HTLState :=
  { s with attrs := fun a => if a = UnitAttr.WWTP_N_2_P then i else s.attrs a }

/-- `WWTP.operation_hours=sys_PSA.operating_hours=i` (`system_PSA.py`, parameter `operation_hour`). -/
def set_operation_hour (i : ℚ) (s : HTLState) : HTLState :=
  { s with attrs := fun a =>
      if a = UnitAttr.WWTP_operation_hours ∨ a = UnitAttr.sysPSA_operating_hours then i
      else s.attrs a }

/-- `H1.U=i` (`system_PSA.py`, parameter `enforced heating transfer coefficient`). -/
def set_U (i : ℚ) (s : HTLState) : HTLState :=
  { s with attrs := fun a => if a = UnitAttr.H1_U then i else s.attrs a }

/-- `HTL.lipid_2_biocrude=i` (`system_PSA.py`, parameter `lipid_2_biocrude`). -/
def set_lipid_2_biocrude (i : ℚ) (s : HTLState) : HTLState :=
  { s with attrs := fun a => if a = UnitAttr.HTL_lipid_2_biocrude then i else s.attrs a }

/-- `HTL.protein_2_biocrude=i` (`system_PSA.py`, parameter `protein_2_biocrude`). -/
def set_protein_2_biocrude (i : ℚ) (s : HTLState) : HTLState :=
  { s with attrs := fun a => if a = UnitAttr.HTL_protein_2_biocrude then i else s.attrs a }

/-- `HTL.carbo_2_biocrude=i` (`system_PSA.py`, parameter `carbo_2_biocrude`). -/
def set_carbo_2_biocrude (i : ℚ) (s : HTLState) : HTLState :=
  { s with attrs := fun a => if a = UnitAttr.HTL_carbo_2_biocrude then i else s.attrs a }

/-- `HTL.protein_2_gas=i` (`system_PSA.py`, parameter `protein_2_gas`). -/
def set_protein_2_gas (i : ℚ) (s : HTLState) : HTLState :=
  { s with attrs := fun a => if a = UnitAttr.HTL_protein_2_gas then i else s.attrs a }

/-- `HTL.carbo_2_gas=i` (`system_PSA.py`, parameter `carbo_2_gas`). -/
def set_carbo_2_gas (i : ℚ) (s : HTLState) : HTLState :=
  { s with attrs := fun a => if a = UnitAttr.HTL_carbo_2_gas then i else s.attrs a }

/-- `HTL.biocrude_C_slope=i` (`system_PSA.py`, parameter `biocrude_C_slope`). -/
def set_biocrude_C_slope (i : ℚ) (s : HTLState) : HTLState :=
  { s with attrs := fun a => if a = UnitAttr.HTL_biocrude_C_slope then i else s.attrs a }

/-- `HTL.biocrude_C_intercept=i` (`system_PSA.py`, parameter `biocrude_C_intercept`). -/
def set_biocrude_C_intercept (i : ℚ) (s : HTLState) : HTLState :=
  { s with attrs := fun a => if a = UnitAttr.HTL_biocrude_C_intercept then i else s.attrs a }

/-- `HTL.biocrude_N_slope=i` (`system_PSA.py`, parameter `biocrude_N_slope`). -/
def set_biocrude_N_slope (i : ℚ) (s : HTLState) : HTLState :=
  { s with attrs := fun a => if a = UnitAttr.HTL_biocrude_N_slope then i else s.attrs a }

/-- `HTL.biocrude_H_slope=i` (`system_PSA.py`, parameter `biocrude_H_slope`). -/
def set_biocrude_H_slope (i : ℚ) (s : HTLState) : HTLState :=
  { s with attrs := fun a => if a = UnitAttr.HTL_biocrude_H_slope then i else s.attrs a }

/-- `HTL.biocrude_H_intercept=i` (`system_PSA.py`, parameter `biocrude_H_intercept`). -/
def set_biocrude_H_intercept (i : ℚ) (s : HTLState) : HTLState :=
  { s with attrs := fun a => if a = UnitAttr.HTL_biocrude_H_intercept then i else s.attrs a }

/-- `HTL.HTLaqueous_C_slope=i` (`system_PSA.py`, parameter `HTLaqueous_C_slope`). -/
def set_HTLaqueous_C_slope (i : ℚ) (s : HTLState) : HTLState :=
  { s with attrs := fun a => if a = UnitAttr.HTL_HTLaqueous_C_slope then i else s.attrs a }

/-- `HTL.TOC_TC=i` (`system_PSA.py`, parameter `TOC_TC`). -/
def set_TOC_TC (i : ℚ) (s : HTLState) : HTLState :=
  { s with attrs := fun a => if a = UnitAttr.HTL_TOC_TC then i else s.attrs a }

/-- `HTL.biochar_C_slope=i` (`system_PSA.py`, parameter `biochar_C_slope`). -/
def set_biochar_C_slope (i : ℚ) (s : HTLState) : HTLState :=
  { s with attrs := fun a => if a = UnitAttr.HTL_biochar_C_slope then i else s.attrs a }

/-- `HTL.biocrude_moisture_content=i` (`system_PSA.py`, parameter `biocrude_moisture_content`). -/
def set_biocrude_moisture_content (i : ℚ) (s : HTLState) : HTLState :=
  { s with attrs := fun a => if a = UnitAttr.HTL_biocrude_moisture_content then i else s.attrs a }

/-- `HTL.biochar_P_recovery_ratio=i` (`system_PSA.py`, parameter `biochar_P_recovery_ratio`). -/
def set_biochar_P_recovery_ratio (i : ℚ) (s : HTLState) : HTLState :=
  { s with attrs := fun a => if a = UnitAttr.HTL_biochar_P_recovery_ratio then i else s.attrs a }

/-- `AcidEx.acid_vol=i` (`system_PSA.py`, parameter `acid_vol`). -/
def set_acid_vol (i : ℚ) (s : HTLState) : HTLState :=
  { s with attrs := fun a => if a = UnitAttr.AcidEx_acid_vol then i else s.attrs a }

/-- `AcidEx.P_acid_recovery_ratio=i` (`system_PSA.py`, parameter `P_acid_recovery_ratio`). -/
def set_P_recovery_ratio (i : ℚ) (s : HTLState) : HTLState :=
  { s with attrs := fun a => if a = UnitAttr.AcidEx_P_acid_recovery_ratio then i else s.attrs a }

/-- `StruPre.target_pH=i` (`system_PSA.py`, parameter `target_pH`). -/
def set_StruPre_target_pH (i : ℚ) (s : HTLState) : HTLState :=
  { s with attrs := fun a => if a = UnitAttr.StruPre_target_pH then i else s.attrs a }

/-- `StruPre.P_pre_recovery_ratio=i` (`system_PSA.py`, parameter `P_pre_recovery_ratio`). -/
def set_P_pre_recovery_ratio (i : ℚ) (s : HTLState) : HTLState :=
  { s with attrs := fun a => if a = UnitAttr.StruPre_P_pre_recovery_ratio then i else s.attrs a }

/-- `CHG.WHSV=i` (`system_PSA.py`, parameter `WHSV`). -/
def set_CHG_WHSV (i : ℚ) (s : HTLState) : HTLState :=
  { s with attrs := fun a => if a = UnitAttr.CHG_WHSV then i else s.attrs a }

/-- `CHG.catalyst_lifetime=i` (`system_PSA.py`, parameter `catalyst_lifetime`). -/
def set_CHG_catalyst_lifetime (i : ℚ) (s : HTLState) : HTLState :=
  { s with attrs := fun a => if a = UnitAttr.CHG_catalyst_lifetime then i else s.attrs a }

/-- `CHG.gas_C_2_total_C=i` (`system_PSA.py`, parameter `gas_C_2_total_C`). -/
def set_gas_C_2_total_C (i : ℚ) (s : HTLState) : HTLState :=
  { s with attrs := fun a => if a = UnitAttr.CHG_gas_C_2_total_C then i else s.attrs a }

/-- `MemDis.influent_pH=i` (`system_PSA.py`, parameter `influent_pH`). -/
def set_influent_pH (i : ℚ) (s : HTLState) : HTLState :=
  { s with attrs := fun a => if a = UnitAttr.MemDis_influent_pH then i else s.attrs a }

/-- `MemDis.target_pH=i` (`system_PSA.py`, parameter `target_pH`). -/
def set_MemDis_target_pH (i : ℚ) (s : HTLState) : HTLState :=
  { s with attrs := fun a => if a = UnitAttr.MemDis_target_pH then i else s.attrs a }

/-- `MemDis.m2_2_m3=i` (`system_PSA.py`, parameter `m2_2_m3`). -/
def set_m2_2_m3 (i : ℚ) (s : HTLState) : HTLState :=
  { s with attrs := fun a => if a = UnitAttr.MemDis_m2_2_m3 then i else s.attrs a }

/-- `MemDis.Dm=i` (`system_PSA.py`, parameter `Dm`). -/
def set_Dm (i : ℚ) (s : HTLState) : HTLState :=
  { s with attrs := fun a => if a = UnitAttr.MemDis_Dm then i else s.attrs a }

/-- `MemDis.porosity=i` (`system_PSA.py`, parameter `porosity`). -/
def set_porosity (i : ℚ) (s : HTLState) : HTLState :=
  { s with attrs := fun a => if a = UnitAttr.MemDis_porosity then i else s.attrs a }

/-- `MemDis.thickness=i` (`system_PSA.py`, parameter `thickness`). -/
def set_thickness (i : ℚ) (s : HTLState) : HTLState :=
  { s with attrs := fun a => if a = UnitAttr.MemDis_thickness then i else s.attrs a }

/-- `MemDis.tortuosity=i` (`system_PSA.py`, parameter `tortuosity`). -/
def set_tortuosity (i : ℚ) (s : HTLState) : HTLState :=
  { s with attrs := fun a => if a = UnitAttr.MemDis_tortuosity then i else s.attrs a }

/-- `MemDis.Ka=i` (`system_PSA.py`, parameter `Ka`). -/
def set_Ka (i : ℚ) (s : HTLState) : HTLState :=
  { s with attrs := fun a => if a = UnitAttr.MemDis_Ka then i else s.attrs a }

/-- `MemDis.capacity=i` (`system_PSA.py`, parameter `capacity`). -/
def set_capacity (i : ℚ) (s : HTLState) : HTLState :=
  { s with attrs := fun a => if a = UnitAttr.MemDis_capacity then i else s.attrs a }

/-- `HT.WHSV=i` (`system_PSA.py`, parameter `WHSV`). -/
def set_HT_WHSV (i : ℚ) (s : HTLState) : HTLState :=
  { s with attrs := fun a => if a = UnitAttr.HT_WHSV then i else s.attrs a }

/-- `HT.catalyst_lifetime=i` (`system_PSA.py`, parameter `catalyst_lifetime`). -/
def set_HT_catalyst_lifetime (i : ℚ) (s : HTLState) : HTLState :=
  { s with attrs := fun a => if a = UnitAttr.HT_catalyst_lifetime then i else s.attrs a }

/-- `HT.hydrogen_rxned_to_biocrude=i` (`system_PSA.py`, parameter `hydrogen_rxned_to_biocrude`). -/
def set_HT_hydrogen_rxned_to_biocrude (i : ℚ) (s : HTLState) : HTLState :=
  { s with attrs := fun a => if a = UnitAttr.HT_hydrogen_rxned_to_biocrude then i else s.attrs a }

/-- `HT.PSA_efficiency=i` (`system_PSA.py`, parameter `PSA_efficiency`). -/
def set_PSA_efficiency (i : ℚ) (s : HTLState) : HTLState :=
  { s with attrs := fun a => if a = UnitAttr.HT_PSA_efficiency then i else s.attrs a }

/-- `HT.hydrogen_excess=i` (`system_PSA.py`, parameter `hydrogen_excess`). -/
def set_HT_hydrogen_excess (i : ℚ) (s : HTLState) : HTLState :=
  { s with attrs := fun a => if a = UnitAttr.HT_hydrogen_excess then i else s.attrs a }

/-- `HT.hydrocarbon_ratio=i` (`system_PSA.py`, parameter `hydrocarbon_ratio`). -/
def set_HT_hydrocarbon_ratio (i : ℚ) (s : HTLState) : HTLState :=
  { s with attrs := fun a => if a = UnitAttr.HT_hydrocarbon_ratio then i else s.attrs a }

/-- `HC.WHSV=i` (`system_PSA.py`, parameter `WHSV`). -/
def set_HC_WHSV (i : ℚ) (s : HTLState) : HTLState :=
  { s with attrs := fun a => if a = UnitAttr.HC_WHSV then i else s.attrs a }

/-- `HC.catalyst_lifetime=i` (`system_PSA.py`, parameter `catalyst_lifetime`). -/
def set_HC_catalyst_lifetime (i : ℚ) (s : HTLState) : HTLState :=
  { s with attrs := fun a => if a = UnitAttr.HC_catalyst_lifetime then i else s.attrs a }

/-- `HC.hydrogen_rxned_to_heavy_oil=i` (`system_PSA.py`, parameter `hydrogen_rxned_to_heavy_oil`). -/
def set_HC_hydrogen_rxned_to_heavy_oil (i : ℚ) (s : HTLState) : HTLState :=
  { s with attrs := fun a => if a = UnitAttr.HC_hydrogen_rxned_to_heavy_oil then i else s.attrs a }

/-- `HC.hydrogen_excess=i` (`system_PSA.py`, parameter `hydrogen_excess`). -/
def set_HC_hydrogen_excess (i : ℚ) (s : HTLState) : HTLState :=
  { s with attrs := fun a => if a = UnitAttr.HC_hydrogen_excess then i else s.attrs a }

/-- `HC.hydrocarbon_ratio=i` (`system_PSA.py`, parameter `hydrocarbon_ratio`). -/
def set_HC_hydrocarbon_ratio (i : ℚ) (s : HTLState) : HTLState :=
  { s with attrs := fun a => if a = UnitAttr.HC_hydrocarbon_ratio then i else s.attrs a }

/-- `HTL.CAPEX_factor=i` (`system_PSA.py`, parameter `HTL_CAPEX_factor`). -/
def set_HTL_CAPEX_factor (i : ℚ) (s : HTLState) : HTLState :=
  { s with attrs := fun a => if a = UnitAttr.HTL_CAPEX_factor then i else s.attrs a }

/-- `CHG.CAPEX_factor=i` (`system_PSA.py`, parameter `CHG_CAPEX_factor`). -/
def set_CHG_CAPEX_factor (i : ℚ) (s : HTLState) : HTLState :=
  { s with attrs := fun a => if a = UnitAttr.CHG_CAPEX_factor then i else s.attrs a }

/-- `HT.CAPEX_factor=i` (`system_PSA.py`, parameter `HT_CAPEX_factor`). -/
def set_HT_CAPEX_factor (i : ℚ) (s : HTLState) : HTLState :=
  { s with attrs := fun a => if a = UnitAttr.HT_CAPEX_factor then i else s.attrs a }

/-- `CHP.unit_CAPEX=i` (`system_PSA.py`, parameter `unit_CAPEX`). -/
def set_unit_CAPEX (i : ℚ) (s : HTLState) : HTLState :=
  { s with attrs := fun a => if a = UnitAttr.CHP_unit_CAPEX then i else s.attrs a }

/-- `tea.IRR=i` (`system_PSA.py`, parameter `IRR`). -/
def set_IRR (i : ℚ) (s : HTLState) : HTLState :=
  { s with attrs := fun a => if a = UnitAttr.tea_IRR then i else s.attrs a }

/-- `H2SO4_Tank.ins[0].price=i` (`system_PSA.py`, parameter `5% H2SO4 price`). -/
def set_H2SO4_price (i : ℚ) (s : HTLState) : HTLState :=
  { s with attrs := fun a => if a = UnitAttr.H2SO4_Tank_ins0_price then i else s.attrs a }

/-- `StruPre.ins[1].price=i` (`system_PSA.py`, parameter `MgCl2 price`). -/
def set_MgCl2_price (i : ℚ) (s : HTLState) : HTLState :=
  { s with attrs := fun a => if a = UnitAttr.StruPre_ins1_price then i else s.attrs a }

/-- `StruPre.ins[2].price=i` (`system_PSA.py`, parameter `NH4Cl price`). -/
def set_NH4Cl_price (i : ℚ) (s : HTLState) : HTLState :=
  { s with attrs := fun a => if a = UnitAttr.StruPre_ins2_price then i else s.attrs a }

/-- `StruPre.ins[3].price=i` (`system_PSA.py`, parameter `MgO price`). -/
def set_MgO_price (i : ℚ) (s : HTLState) : HTLState :=
  { s with attrs := fun a => if a = UnitAttr.StruPre_ins3_price then i else s.attrs a }

/-- `StruPre.outs[0].price=i` (`system_PSA.py`, parameter `struvite price`). -/
def set_struvite_price (i : ℚ) (s : HTLState) : HTLState :=
  { s with attrs := fun a => if a = UnitAttr.StruPre_outs0_price then i else s.attrs a }

/-- `RSP1.ins[0].price=i` (`system_PSA.py`, parameter `H2 price`). -/
def set_H2_price (i : ℚ) (s : HTLState) : HTLState :=
  { s with attrs := fun a => if a = UnitAttr.RSP1_ins0_price then i else s.attrs a }

/-- `MemDis.ins[2].price=i` (`system_PSA.py`, parameter `NaOH price`). -/
def set_NaOH_price (i : ℚ) (s : HTLState) : HTLState :=
  { s with attrs := fun a => if a = UnitAttr.MemDis_ins2_price then i else s.attrs a }

/-- `MemDis.outs[0].price=i` (`system_PSA.py`, parameter `ammonium sulfate price`). -/
def set_ammonium_sulfate_price (i : ℚ) (s : HTLState) : HTLState :=
  { s with attrs := fun a => if a = UnitAttr.MemDis_outs0_price then i else s.attrs a }

/-- `MemDis.membrane_price=i` (`system_PSA.py`, parameter `membrane price`). -/
def set_membrane_price (i : ℚ) (s : HTLState) : HTLState :=
  { s with attrs := fun a => if a = UnitAttr.MemDis_membrane_price then i else s.attrs a }

/-- `CHG.ins[1].price=i` (`system_PSA.py`, parameter `CHG catalyst price`). -/
def set_catalyst_price (i : ℚ) (s : HTLState) : HTLState :=
  { s with attrs := fun a => if a = UnitAttr.CHG_ins1_price then i else s.attrs a }

/-- `CHP.ins[1].price=i` (`system_PSA.py`, parameter `CH4 price`). -/
def set_CH4_price (i : ℚ) (s : HTLState) : HTLState :=
  { s with attrs := fun a => if a = UnitAttr.CHP_ins1_price then i else s.attrs a }

/-- `HT.ins[2].price=HC.ins[2].price=i` (`system_PSA.py`, parameter `HT & HC catalyst price`). -/
def set_HT_HC_catalyst_price (i : ℚ) (s : HTLState) : HTLState :=
  { s with attrs := fun a =>
      if a = UnitAttr.HT_ins2_price ∨ a = UnitAttr.HC_ins2_price then i
      else s.attrs a }

/-- `FuelMixer.gasoline_price=i` (`system_PSA.py`, parameter `gasoline price`). -/
def set_gasoline_price (i : ℚ) (s : HTLState) : HTLState :=
  { s with attrs := fun a => if a = UnitAttr.FuelMixer_gasoline_price then i else s.attrs a }

/-- `FuelMixer.diesel_price=i` (`system_PSA.py`, parameter `diesel price`). -/
def set_diesel_price (i : ℚ) (s : HTLState) : HTLState :=
  { s with attrs := fun a => if a = UnitAttr.FuelMixer_diesel_price then i else s.attrs a }

/-- `PowerUtility.price=i` (`system_PSA.py`, parameter `electricity price`). -/
def set_electrivity_price (i : ℚ) (s : HTLState) : HTLState :=
  { s with attrs := fun a => if a = UnitAttr.PowerUtility_price then i else s.attrs a }

/-- `qs.ImpactItem.get_item(item).CFs[CF]=i` — the LCA parameter family
registered in the loop at `system_PSA.py` lines 1305-1318, one parameter per
(impact item, impact indicator) pair in the external LCA registry. -/
def set_LCA (item CF : String) (i : ℚ) (s : HTLState) : HTLState :=
  { s with CFs := fun k => if k = (item, CF) then i else s.CFs k }

/-- The statically registered parameters of the uncertainty model, in
registration order: `(name, setter)` as given to `@param(name=...)` at
`system_PSA.py` lines 516-1299.  (The dynamically generated `set_LCA` family
is kept separately since it is indexed by the external LCA registry.) -/
def model_parameters : List (String × (ℚ → HTLState → HTLState)) := [
  ("ww_2_dry_sludge", set_ww_2_dry_sludge),
  ("sludge_moisture", set_WWTP_sludge_moisture),
  ("sludge_dw_ash", set_sludge_dw_ash),
  ("sludge_afdw_lipid", set_sludge_afdw_lipid),
  ("sludge_afdw_protein", set_sludge_afdw_protein),
  ("lipid_2_C", set_lipid_2_C),
  ("protein_2_C", set_protein_2_C),
  ("carbo_2_C", set_carbo_2_C),
  ("C_2_H", set_C_2_H),
  ("protein_2_N", set_protein_2_N),
  ("N_2_P", set_N_2_P),
  ("operation_hour", set_operation_hour),
  ("enforced heating transfer coefficient", set_U),
  ("lipid_2_biocrude", set_lipid_2_biocrude),
  ("protein_2_biocrude", set_protein_2_biocrude),
  ("carbo_2_biocrude", set_carbo_2_biocrude),
  ("protein_2_gas", set_protein_2_gas),
  ("carbo_2_gas", set_carbo_2_gas),
  ("biocrude_C_slope", set_biocrude_C_slope),
  ("biocrude_C_intercept", set_biocrude_C_intercept),
  ("biocrude_N_slope", set_biocrude_N_slope),
  ("biocrude_H_slope", set_biocrude_H_slope),
  ("biocrude_H_intercept", set_biocrude_H_intercept),
  ("HTLaqueous_C_slope", set_HTLaqueous_C_slope),
  ("TOC_TC", set_TOC_TC),
  ("biochar_C_slope", set_biochar_C_slope),
  ("biocrude_moisture_content", set_biocrude_moisture_content),
  ("biochar_P_recovery_ratio", set_biochar_P_recovery_ratio),
  ("acid_vol", set_acid_vol),
  ("P_acid_recovery_ratio", set_P_recovery_ratio),
  ("target_pH", set_StruPre_target_pH),
  ("P_pre_recovery_ratio", set_P_pre_recovery_ratio),
  ("WHSV", set_CHG_WHSV),
  ("catalyst_lifetime", set_CHG_catalyst_lifetime),
  ("gas_C_2_total_C", set_gas_C_2_total_C),
  ("influent_pH", set_influent_pH),
  ("target_pH", set_MemDis_target_pH),
  ("m2_2_m3", set_m2_2_m3),
  ("Dm", set_Dm),
  ("porosity", set_porosity),
  ("thickness", set_thickness),
  ("tortuosity", set_tortuosity),
  ("Ka", set_Ka),
  ("capacity", set_capacity),
  ("WHSV", set_HT_WHSV),
  ("catalyst_lifetime", set_HT_catalyst_lifetime),
  ("hydrogen_rxned_to_biocrude", set_HT_hydrogen_rxned_to_biocrude),
  ("PSA_efficiency", set_PSA_efficiency),
  ("hydrogen_excess", set_HT_hydrogen_excess),
  ("hydrocarbon_ratio", set_HT_hydrocarbon_ratio),
  ("WHSV", set_HC_WHSV),
  ("catalyst_lifetime", set_HC_catalyst_lifetime),
  ("hydrogen_rxned_to_heavy_oil", set_HC_hydrogen_rxned_to_heavy_oil),
  ("hydrogen_excess", set_HC_hydrogen_excess),
  ("hydrocarbon_ratio", set_HC_hydrocarbon_ratio),
  ("HTL_CAPEX_factor", set_HTL_CAPEX_factor),
  ("CHG_CAPEX_factor", set_CHG_CAPEX_factor),
  ("HT_CAPEX_factor", set_HT_CAPEX_factor),
  ("unit_CAPEX", set_unit_CAPEX),
  ("IRR", set_IRR),
  ("5% H2SO4 price", set_H2SO4_price),
  ("MgCl2 price", set_MgCl2_price),
  ("NH4Cl price", set_NH4Cl_price),
  ("MgO price", set_MgO_price),
  ("struvite price", set_struvite_price),
  ("H2 price", set_H2_price),
  ("NaOH price", set_NaOH_price),
  ("ammonium sulfate price", set_ammonium_sulfate_price),
  ("membrane price", set_membrane_price),
  ("CHG catalyst price", set_catalyst_price),
  ("CH4 price", set_CH4_price),
  ("HT & HC catalyst price", set_HT_HC_catalyst_price),
  ("gasoline price", set_gasoline_price),
  ("diesel price", set_diesel_price),
  ("electricity price", set_electrivity_price)
]

/-- `f` writes the sampled value to exactly the attributes in `ts` and
leaves every other unit attribute, stream price, system attribute and LCA
characterization factor unchanged. -/
def WritesExactly (f : ℚ → HTLState → HTLState) (ts : List UnitAttr) : Prop :=
  ∀ (i : ℚ) (s : HTLState),
    (f i s).CFs = s.CFs ∧
    ∀ a : UnitAttr, (f i s).attrs a = if a ∈ ts then i else s.attrs a


/-! ## Theorems -/

/-- C10: before `load()` has loaded both the components and the system,
accessing any name that is not defined at module level on `exposan.cas`
raises an `AttributeError` whose message instructs the caller to load the
module with `load()`; once both are loaded, the same access returns Python
`None` instead of raising. -/
theorem cas_getattr_load_protocol
    (moduleDict : String → Option PyVal) (name : String)
    (hundef : moduleDict name = Option.none) :
    (∀ components_loaded system_loaded : Bool,
        ¬(components_loaded = true ∧ system_loaded = true) →
        cas_module_getattr components_loaded system_loaded moduleDict name =
          Except.error
            "module \"exposan.cas\" not yet loaded, load module with `exposan.cas.load()`.") ∧
    cas_module_getattr true true moduleDict name = Except.ok PyVal.pynone := by
  constructor
  · intro c s hcs
    cases c <;> cases s <;> simp [cas_module_getattr, hundef] at hcs ⊢
  · simp [cas_module_getattr, hundef]

/-- Witness for `cas_getattr_load_protocol` at a concrete module dictionary
(empty) and name. -/
theorem cas_getattr_load_protocol_witness :
    (∀ components_loaded system_loaded : Bool,
        ¬(components_loaded = true ∧ system_loaded = true) →
        cas_module_getattr components_loaded system_loaded (fun _ => Option.none) "sys" =
          Except.error
            "module \"exposan.cas\" not yet loaded, load module with `exposan.cas.load()`.") ∧
    cas_module_getattr true true (fun _ => Option.none) "sys" = Except.ok PyVal.pynone :=
  cas_getattr_load_protocol (fun _ => Option.none) "sys" rfl

/-- C8: the reference activated-sludge benchmark state reached after the
50-time-unit simulation passes every assertion of `test_bsm1`: non-empty
effluent, and the four concentration/COD/TSS values within 1% of 0.895,
4994.3, 47.5 and 6377.9 respectively. -/
theorem bsm1_scenario_passes : test_bsm1 bsm1_simulated := by
  refine ⟨rfl, ?_, ?_, ?_, ?_⟩ <;>
    simp [assert_allclose, bsm1_simulated]

/-- C4: the distance-filling loop treats every record independently: the
output has one row per input row; a row that already carries a distance is
returned unchanged; a row whose Google lookup yields a distance gets exactly
that distance (metres converted to km); and a row whose lookup fails with a
missing key is recorded as missing (NaN) — the failure is caught for that
record alone and is never fatal to the batch, and rows with successfully
computed distances are unaffected by other rows' failures. -/
theorem fill_real_distances_per_record
    (lookup : String → String → Option ℚ) (rows : List WRRFDistRow)
    (i : Nat) (hi : i < rows.length) :
    (fill_real_distances lookup rows).length = rows.length ∧
    ((rows.get ⟨i, hi⟩).real_distance_km.isSome →
        (fill_real_distances lookup rows).get
            ⟨i, by simpa [fill_real_distances] using hi⟩ = rows.get ⟨i, hi⟩) ∧
    (∀ meters : ℚ,
        (rows.get ⟨i, hi⟩).real_distance_km = Option.none →
        lookup (rows.get ⟨i, hi⟩).WRRF_location (rows.get ⟨i, hi⟩).refinery_location =
          Option.some meters →
        ((fill_real_distances lookup rows).get
            ⟨i, by simpa [fill_real_distances] using hi⟩).real_distance_km =
          Option.some (meters / 1000)) ∧
    ((rows.get ⟨i, hi⟩).real_distance_km = Option.none →
        lookup (rows.get ⟨i, hi⟩).WRRF_location (rows.get ⟨i, hi⟩).refinery_location =
          Option.none →
        ((fill_real_distances lookup rows).get
            ⟨i, by simpa [fill_real_distances] using hi⟩).real_distance_km =
          Option.none) := by
  refine ⟨by simp [fill_real_distances], ?_, ?_, ?_⟩
  · intro hsome
    simp only [List.get_eq_getElem] at hsome
    simp only [fill_real_distances, List.get_eq_getElem, List.getElem_map]
    rw [if_neg]
    simp [Option.isNone_iff_eq_none, Option.isSome_iff_ne_none.mp hsome]
  · intro meters hnone hlook
    simp only [List.get_eq_getElem] at hnone hlook
    simp only [fill_real_distances, List.get_eq_getElem, List.getElem_map]
    rw [if_pos (by simp [hnone]), hlook]
  · intro hnone hlook
    simp only [List.get_eq_getElem] at hnone hlook
    simp only [fill_real_distances, List.get_eq_getElem, List.getElem_map]
    rw [if_pos (by simp [hnone]), hlook]

/-- Witness for `fill_real_distances_per_record`: a two-row batch in which
the first row's lookup fails and the second row's lookup succeeds; the
failure is recorded only on the first row. -/
theorem fill_real_distances_per_record_witness :
    (fill_real_distances
        (fun a _ => if a = "locA" then Option.none else Option.some 2000)
        [⟨"locA", "refA", Option.none⟩, ⟨"locB", "refB", Option.none⟩]).length = 2 ∧
    ((fill_real_distances
        (fun a _ => if a = "locA" then Option.none else Option.some 2000)
        [⟨"locA", "refA", Option.none⟩, ⟨"locB", "refB", Option.none⟩]).get
          ⟨1, by simp [fill_real_distances]⟩).real_distance_km = Option.some (2000 / 1000) := by
  constructor
  · exact (fill_real_distances_per_record
      (fun a _ => if a = "locA" then Option.none else Option.some 2000)
      [⟨"locA", "refA", Option.none⟩, ⟨"locB", "refB", Option.none⟩] 0 (by simp)).1
  · exact (fill_real_distances_per_record
      (fun a _ => if a = "locA" then Option.none else Option.some 2000)
      [⟨"locA", "refA", Option.none⟩, ⟨"locB", "refB", Option.none⟩] 1 (by simp)).2.2.1
      2000 rfl (by simp)

/-- C7 counterexample: not every join of geospatial input tables is preceded
by a duplicate-key assertion.  The state electricity-price join of
`geospatial_analysis.py` line 134 is performed with no assertion at all: on
an input whose key column contains a duplicated row (`dup_count = 1`) the
merge still proceeds and produces a merged table instead of failing. -/
theorem merge_electricity_no_assertion :
    dup_count (([("Illinois", 1), ("Illinois", 2)] : List (String × Nat)).map Prod.fst) = 1 ∧
    merge_electricity [("Illinois", 1), ("Illinois", 2)] [("Illinois", 10)] =
      [("Illinois", 1, 10), ("Illinois", 2, 10)] := by
  constructor
  · decide
  · rfl

/-- C7 (amended): the two joins that build the geospatial model input and
the integrated decarbonization result (`geospatial_analysis.py` lines
258-262 and 751-755) do assert the absence of duplicate join keys in both
inputs eagerly: each of those merges proceeds only when the key columns of
both inputs contain no duplicated row, and when either input contains a
duplicate the run fails at the assertion, before the merge is performed.
The script's other joins (such as the line-134 electricity join) carry no
such assertion. -/
theorem guarded_merges_assert_eagerly {K A B : Type} [DecidableEq K]
    (t1 : List (K × A)) (t2 : List (K × B)) :
    (dup_count (t1.map Prod.fst) ≠ 0 ∨ dup_count (t2.map Prod.fst) ≠ 0 →
        merge_with_old_dataset t1 t2 = Except.error "AssertionError" ∧
        merge_integrated_result t1 t2 = Except.error "AssertionError") ∧
    (dup_count (t1.map Prod.fst) = 0 → dup_count (t2.map Prod.fst) = 0 →
        merge_with_old_dataset t1 t2 = Except.ok (left_merge t1 t2) ∧
        merge_integrated_result t1 t2 = Except.ok (left_merge t1 t2)) := by
  constructor
  · intro hdup
    rcases hdup with h | h
    · constructor
      · by_cases h2 : dup_count (t2.map Prod.fst) ≠ 0
        · simp [merge_with_old_dataset, h2]
        · simp [merge_with_old_dataset, h2, h]
      · simp [merge_integrated_result, h]
    · constructor
      · simp [merge_with_old_dataset, h]
      · by_cases h1 : dup_count (t1.map Prod.fst) ≠ 0
        · simp [merge_integrated_result, h1]
        · simp [merge_integrated_result, h1, h]
  · intro h1 h2
    constructor
    · simp [merge_with_old_dataset, h1, h2]
    · simp [merge_integrated_result, h1, h2]

/-- Witness for `guarded_merges_assert_eagerly`: a duplicate key in one
input makes both guarded merges fail at the assertion, and duplicate-free
inputs let them merge. -/
theorem guarded_merges_assert_eagerly_witness :
    (merge_with_old_dataset [((1 : Nat), (5 : Nat)), (1, 6)] [((1 : Nat), (7 : Nat))] =
        Except.error "AssertionError") ∧
    (merge_with_old_dataset [((1 : Nat), (5 : Nat))] [((1 : Nat), (7 : Nat))] =
        Except.ok (left_merge [((1 : Nat), (5 : Nat))] [((1 : Nat), (7 : Nat))])) := by
  constructor
  · exact ((guarded_merges_assert_eagerly [(1, 5), (1, 6)] [(1, 7)]).1
      (Or.inl (by decide))).1
  · exact ((guarded_merges_assert_eagerly [(1, 5)] [(1, 7)]).2 (by decide) (by decide)).1

/-- Helper: on a row whose simulation converged, the loop body returns a
record, and that record's `USD_decarbonization` is NaN exactly when the
computed CO2 reduction is not positive. -/
theorem processGeoRow_ok_spec (r : WRRFRow) (o : GeoSimOut)
    (ho : r.sim = Except.ok o) :
    ∃ x, processGeoRow r = Except.ok x ∧
      (x.USD_decarbonization = Option.none ↔ x.CO2_reduction ≤ 0) := by
  have hrun : processGeoRow r = Except.ok
      { CWNS := r.CWNS
        facility_code := r.facility_code
        CO2_reduction := -o.GlobalWarming
        sludge_CO2_reduction_ratio := -o.GlobalWarming / r.biosolids_emission / 365 / 30
        WRRF_CO2_reduction_ratio := -o.GlobalWarming / r.total_emission / 365 / 30
        NPV := o.NPV
        USD_decarbonization :=
          if -o.GlobalWarming > 0 then Option.some (-o.NPV / -o.GlobalWarming * 1000)
          else Option.none
        oil_BPD := o.barrel } := by
    unfold processGeoRow
    rw [ho]
    rfl
  refine ⟨_, hrun, ?_⟩
  by_cases hpos : -o.GlobalWarming > 0
  · simp only [if_pos hpos]
    constructor
    · intro h
      exact absurd h (by simp)
    · intro h
      exact absurd hpos (not_lt.mpr h)
  · simp only [if_neg hpos]
    simpa using not_lt.mp hpos

/-- Helper: a row whose simulation raises makes the whole batch raise. -/
theorem runGeoBatch_error_of_mem (rows : List WRRFRow) (r : WRRFRow)
    (e : SimFailure) (hr : r ∈ rows) (he : r.sim = Except.error e) :
    ∃ e', runGeoBatch rows = Except.error e' := by
  induction rows with
  | nil => cases hr
  | cons a as ih =>
    rcases List.mem_cons.mp hr with rfl | hmem
    · refine ⟨e, ?_⟩
      have hpa : processGeoRow r = Except.error e := by
        unfold processGeoRow
        rw [he]
        rfl
      simp only [runGeoBatch, hpa]
      rfl
    · cases hpa : processGeoRow a with
      | error e' =>
        refine ⟨e', ?_⟩
        simp only [runGeoBatch, hpa]
        rfl
      | ok x =>
        obtain ⟨e', hbatch⟩ := ih hmem
        refine ⟨e', ?_⟩
        simp only [runGeoBatch, hpa, hbatch]
        rfl

/-- C1 counterexample: the geospatial batch loop does not record a failed
row as NaN and continue — it has no per-row exception handling, so a single
row whose flowsheet fails to converge aborts the entire batch.  In this
concrete three-row batch, the second row's simulation raises, and
`runGeoBatch` returns that exception instead of a result list, even though a
later row (with a convergent simulation) was still waiting to be processed. -/
theorem geo_batch_aborted_by_one_row :
    geoRowFail.sim = Except.error SimFailure.convergence ∧
    (∃ o, geoRowOK2.sim = Except.ok o) ∧
    runGeoBatch [geoRowOK, geoRowFail, geoRowOK2] =
      Except.error SimFailure.convergence := by
  refine ⟨rfl, ⟨_, rfl⟩, ?_⟩
  rfl

/-- C1 (amended): in the geospatial batch loop only the
`USD_per_tonne_CO2_reduction` metric is guarded per row — it is recorded as
NaN exactly when the row's computed CO2 reduction is not positive, and that
guard never aborts anything.  There is no per-row handling of simulation
failures: when every row's flowsheet converges the loop returns one record
per row, and when any row's simulation raises, the exception propagates and
the whole batch is abandoned. -/
theorem geo_batch_only_USD_guarded :
    (∀ rows : List WRRFRow,
        (∀ r ∈ rows, ∃ o, r.sim = Except.ok o) →
        ∃ res, runGeoBatch rows = Except.ok res ∧ res.length = rows.length ∧
          ∀ x ∈ res, (x.USD_decarbonization = Option.none ↔ x.CO2_reduction ≤ 0)) ∧
    (∀ (rows : List WRRFRow) (r : WRRFRow) (e : SimFailure),
        r ∈ rows → r.sim = Except.error e →
        ∃ e', runGeoBatch rows = Except.error e') := by
  constructor
  · intro rows h
    induction rows with
    | nil => exact ⟨[], rfl, rfl, by simp⟩
    | cons a as ih =>
      obtain ⟨o, ho⟩ := h a (List.mem_cons_self a as)
      obtain ⟨x, hx, hxprop⟩ := processGeoRow_ok_spec a o ho
      obtain ⟨res, hres, hlen, hprop⟩ := ih fun r hr => h r (List.mem_cons_of_mem a hr)
      refine ⟨x :: res, by simp only [runGeoBatch, hx, hres]; rfl, by simp [hlen], ?_⟩
      intro y hy
      rcases List.mem_cons.mp hy with rfl | hy
      · exact hxprop
      · exact hprop y hy
  · exact fun rows r e hr he => runGeoBatch_error_of_mem rows r e hr he

/-- Witness for `geo_batch_only_USD_guarded`: a concrete two-row batch with
convergent simulations yields a full result list, and a concrete batch
containing the failing row yields an exception. -/
theorem geo_batch_only_USD_guarded_witness :
    (∃ res, runGeoBatch [geoRowOK, geoRowOK2] = Except.ok res ∧
        res.length = 2 ∧
        ∀ x ∈ res, (x.USD_decarbonization = Option.none ↔ x.CO2_reduction ≤ 0)) ∧
    (∃ e', runGeoBatch [geoRowFail] = Except.error e') := by
  constructor
  · exact geo_batch_only_USD_guarded.1 [geoRowOK, geoRowOK2] (by
      intro r hr
      rcases List.mem_cons.mp hr with rfl | hr
      · exact ⟨_, rfl⟩
      · rcases List.mem_cons.mp hr with rfl | hr
        · exact ⟨_, rfl⟩
        · cases hr)
  · exact geo_batch_only_USD_guarded.2 [geoRowFail] geoRowFail
      SimFailure.convergence (List.mem_cons_self _ _) rfl

/-- Reducing a successful `Except` bind. -/
theorem ok_bind {ε α β : Type} (a : α) (f : α → Except ε β) :
    (Except.ok a : Except ε α) >>= f = f a := rfl

/-- A system ID never collides with its own `_edg`-suffixed degassed ID. -/
theorem append_edg_ne (s : String) : ¬(s ++ "_edg" = s) := by
  intro h
  have hlen := congrArg String.length h
  rw [String.length_append] at hlen
  have h4 : ("_edg" : String).length = 4 := rfl
  omega

/-- Registering the system ID and its `_edg` variant in a cleared system
registry always succeeds. -/
theorem registerAll_systems (sid : String) :
    registerAll [] [sid, sid ++ "_edg"] = Except.ok [sid, sid ++ "_edg"] := by
  simp [registerAll, List.foldlM_cons, List.foldlM_nil, registerID, ok_bind,
    append_edg_ne sid]

/-- C3: flowsheet construction is deterministic.  For any fixed metab
configuration (reactor type, stage count, gas-extraction mode) and feed
specification, two `create_system` calls made after clearing prior
flowsheet/registry state build identical system descriptions, hence any
(deterministic) simulation and metric evaluation of the two builds gives
identical converged stream flows and metric values; and `create_system_A`,
which clears leftover state itself, builds identical systems from any two
prior registry states. -/
theorem create_system_deterministic :
    (∀ (cfg : MetabConfig) (f1 f2 : FlowsheetReg),
        f1 = clearedReg → f2 = clearedReg →
        create_system cfg f1 = create_system cfg f2) ∧
    (∀ (cfg : MetabConfig) (f1 f2 : FlowsheetReg)
        (simulate : MetabSysDesc → List ℚ) (metric : MetabSysDesc → ℚ),
        f1 = clearedReg → f2 = clearedReg →
        (create_system cfg f1).map (fun p => (simulate p.1, metric p.1)) =
          (create_system cfg f2).map (fun p => (simulate p.1, metric p.1))) ∧
    (∀ f1 f2 : FlowsheetReg, create_system_A f1 = create_system_A f2) := by
  have key : ∀ f : FlowsheetReg, (if f = clearedReg then f else clearedReg) = clearedReg := by
    intro f
    by_cases h : f = clearedReg <;> simp [h]
  refine ⟨?_, ?_, ?_⟩
  · intro cfg f1 f2 h1 h2
    rw [h1, h2]
  · intro cfg f1 f2 simulate metric h1 h2
    rw [h1, h2]
  · intro f1 f2
    simp only [create_system_A, key]

/-- Witness for `create_system_deterministic`: the default configuration on
cleared registries, and `create_system_A` on a dirty versus a cleared
registry. -/
theorem create_system_deterministic_witness :
    create_system {} clearedReg = create_system {} clearedReg ∧
    create_system_A ⟨["leftover"], [], []⟩ = create_system_A clearedReg :=
  ⟨create_system_deterministic.1 {} clearedReg clearedReg rfl rfl,
   create_system_deterministic.2.2 ⟨["leftover"], [], []⟩ clearedReg⟩


/-- C9: for every metab `create_system` call, the liquid volumes of the
constructed reactors sum to `Q*tot_HRT` regardless of stage count, reactor
type or gas-extraction mode; every reactor's gas volume is one tenth of its
own liquid volume; a single-stage build has the one reactor at
`V_liq = Q*tot_HRT`, and a multi-stage build has `V_liq = Q*tot_HRT/12` for
`R1` and `Q*tot_HRT*11/12` for `R2`. -/
theorem metab_reactor_volumes (cfg : MetabConfig) (out : MetabSysDesc)
    (fs : FlowsheetReg) (h : create_system cfg clearedReg = Except.ok (out, fs)) :
    ((out.reactors.map ReactorSpec.V_liq).sum = cfg.Q * cfg.tot_HRT) ∧
    (∀ r ∈ out.reactors, r.V_gas = r.V_liq / 10) ∧
    (cfg.n_stages = 1 → out.reactors.map ReactorSpec.V_liq = [cfg.Q * cfg.tot_HRT]) ∧
    (cfg.n_stages ≠ 1 →
        out.reactors.map ReactorSpec.V_liq =
          [cfg.Q * cfg.tot_HRT / 12, cfg.Q * cfg.tot_HRT * 11 / 12]) := by
  by_cases h1 : cfg.n_stages = 1
  · simp only [create_system, h1, if_pos, clearedReg] at h
    rw [show registerAll [] ["inf", "eff", "eff_dg", "bge", "bg"] =
        Except.ok ["inf", "eff", "eff_dg", "bge", "bg"] from rfl, ok_bind] at h
    rw [show registerAll [] ["IST", "GH", "R1", "DMe"] =
        Except.ok ["IST", "GH", "R1", "DMe"] from rfl, ok_bind] at h
    rw [registerAll_systems, ok_bind] at h
    have h2 := Except.ok.inj h
    rw [Prod.mk.injEq] at h2
    obtain ⟨hdesc, hreg⟩ := h2
    subst hdesc
    refine ⟨by simp, ?_, fun _ => by simp, fun hne => absurd h1 hne⟩
    intro r hr
    rcases List.mem_singleton.mp hr with rfl
    show cfg.Q * cfg.tot_HRT * 0.1 = cfg.Q * cfg.tot_HRT / 10
    norm_num
    ring
  · by_cases hM : cfg.gas_extraction = "M"
    · simp only [create_system, h1, hM, if_pos, if_neg, clearedReg] at h
      rw [show registerAll [] ["inf", "eff", "eff_dg", "bge", "bg1", "bg2", "bgs"] =
          Except.ok ["inf", "eff", "eff_dg", "bge", "bg1", "bg2", "bgs"] from rfl,
        ok_bind] at h
      rw [show registerAll [] ["IST", "GH", "R1", "DMs", "R2", "DMe"] =
          Except.ok ["IST", "GH", "R1", "DMs", "R2", "DMe"] from rfl, ok_bind] at h
      rw [registerAll_systems, ok_bind] at h
      have h2 := Except.ok.inj h
      rw [Prod.mk.injEq] at h2
      obtain ⟨hdesc, hreg⟩ := h2
      subst hdesc
      refine ⟨by simp; ring, ?_, fun heq => absurd heq h1, fun _ => by simp⟩
      intro r hr
      rcases List.mem_cons.mp hr with rfl | hr
      · show cfg.Q * cfg.tot_HRT / 12 * 0.1 = cfg.Q * cfg.tot_HRT / 12 / 10
        norm_num
        ring
      rcases List.mem_singleton.mp hr with rfl
      show cfg.Q * cfg.tot_HRT * 11 / 12 * 0.1 = cfg.Q * cfg.tot_HRT * 11 / 12 / 10
      norm_num
      ring
    · simp only [create_system, h1, hM, if_neg, clearedReg] at h
      rw [show registerAll [] ["inf", "eff", "eff_dg", "bge", "bg1", "bg2"] =
          Except.ok ["inf", "eff", "eff_dg", "bge", "bg1", "bg2"] from rfl, ok_bind] at h
      rw [show registerAll [] ["IST", "GH", "R1", "R2", "DMe"] =
          Except.ok ["IST", "GH", "R1", "R2", "DMe"] from rfl, ok_bind] at h
      rw [registerAll_systems, ok_bind] at h
      have h2 := Except.ok.inj h
      rw [Prod.mk.injEq] at h2
      obtain ⟨hdesc, hreg⟩ := h2
      subst hdesc
      refine ⟨by simp; ring, ?_, fun heq => absurd heq h1, fun _ => by simp⟩
      intro r hr
      rcases List.mem_cons.mp hr with rfl | hr
      · show cfg.Q * cfg.tot_HRT / 12 * 0.1 = cfg.Q * cfg.tot_HRT / 12 / 10
        norm_num
        ring
      rcases List.mem_singleton.mp hr with rfl
      show cfg.Q * cfg.tot_HRT * 11 / 12 * 0.1 = cfg.Q * cfg.tot_HRT * 11 / 12 / 10
      norm_num
      ring

/-- Witness for `metab_reactor_volumes`: the default two-stage `'P'`
configuration (`Q=5`, `tot_HRT=12`) builds two reactors whose liquid
volumes sum to `5*12`. -/
theorem metab_reactor_volumes_witness :
    ∃ (out : MetabSysDesc) (fs : FlowsheetReg),
      create_system { n_stages := 2 } clearedReg = Except.ok (out, fs) ∧
      (out.reactors.map ReactorSpec.V_liq).sum = (5 : ℚ) * 12 :=
  ⟨_, _, rfl, (metab_reactor_volumes { n_stages := 2 } _ _ rfl).1⟩

/-- C5: an uncertainty run with sample size `N` produces an evaluated table
with exactly `N` rows and exactly `len(parameters) + len(metrics)` columns,
and the parameter columns occupy the first `len(parameters)` positions of
every row (taking the first `len(parameters)` entries of each table row
recovers the sample matrix exactly). -/
theorem model_table_shape {σ : Type} (params : List (String × (ℚ → σ → σ)))
    (metrics : List (σ → ℚ)) (simulate : σ → σ) (s0 : σ)
    (draw : Nat → Nat → ℚ) (N : Nat) :
    (evaluateModel params metrics simulate s0 (sampleMatrix params.length N draw)).length
        = N ∧
    (∀ row ∈ evaluateModel params metrics simulate s0 (sampleMatrix params.length N draw),
        row.length = params.length + metrics.length) ∧
    (evaluateModel params metrics simulate s0 (sampleMatrix params.length N draw)).map
        (List.take params.length) = sampleMatrix params.length N draw := by
  refine ⟨by simp [evaluateModel, sampleMatrix], ?_, ?_⟩
  · intro row hrow
    simp only [evaluateModel, sampleMatrix, List.mem_map, List.mem_range] at hrow
    obtain ⟨i, ⟨j, hj, rfl⟩, rfl⟩ := hrow
    simp
  · unfold evaluateModel
    rw [List.map_map]
    have hcongr : ∀ row ∈ sampleMatrix params.length N draw,
        (List.take params.length ∘ fun row =>
          row ++ metrics.map fun m => m (simulate (applySetters params row s0))) row
          = id row := by
      intro row hrow
      simp only [sampleMatrix, List.mem_map, List.mem_range] at hrow
      obtain ⟨i, hi, rfl⟩ := hrow
      have hl : ((List.range params.length).map (draw i)).length = params.length := by
        simp
      simp only [Function.comp_apply, id_eq]
      exact List.take_left' hl
    rw [List.map_congr_left hcongr, List.map_id]

/-- Witness for `model_table_shape`: a one-parameter, one-metric model with
two samples yields a 2×2 table whose first column is the sample column. -/
theorem model_table_shape_witness :
    (evaluateModel [("p", fun i _ => i)] [fun s => s] id (0 : ℚ)
        (sampleMatrix 1 2 (fun i j => (i : ℚ) + j))).length = 2 ∧
    (∀ row ∈ evaluateModel [("p", fun i _ => i)] [fun s => s] id (0 : ℚ)
        (sampleMatrix 1 2 (fun i j => (i : ℚ) + j)), row.length = 1 + 1) ∧
    (evaluateModel [("p", fun i _ => i)] [fun s => s] id (0 : ℚ)
        (sampleMatrix 1 2 (fun i j => (i : ℚ) + j))).map (List.take 1) =
      sampleMatrix 1 2 (fun i j => (i : ℚ) + j) :=
  model_table_shape [("p", fun i _ => i)] [fun s => s] id 0 (fun i j => (i : ℚ) + j) 2

/-- C6: `organize_results` writes a workbook with exactly the three sheets
`Parameters`, `Results`, `Percentiles`, and the `Percentiles` sheet holds
the per-result-column quantiles computed at exactly the levels
`{0, 0.05, 0.25, 0.5, 0.75, 0.95, 1}`. -/
theorem organize_results_spec (tbl : List (List ℚ)) (nparams : Nat) :
    (organize_results tbl nparams).sheetNames = ["Parameters", "Results", "Percentiles"] ∧
    (organize_results tbl nparams).percentilesSheet.map Prod.fst =
      [0, 1/20, 1/4, 1/2, 3/4, 19/20, 1] ∧
    (organize_results tbl nparams).percentilesSheet =
      percentile_levels.map fun q =>
        (q, (columnsOf ((organize_results tbl nparams).resultsSheet)).map fun col =>
          quantileLin col q) := by
  refine ⟨rfl, ?_, rfl⟩
  norm_num [organize_results, percentile_levels]

/-- Helper: a setter of the form `target.attribute = i` writes exactly its
one target attribute. -/
theorem writesExactly_single (t : UnitAttr) :
    WritesExactly
      (fun i s => { s with attrs := fun a => if a = t then i else s.attrs a }) [t] := by
  intro i s
  refine ⟨rfl, fun a => ?_⟩
  by_cases h : a = t <;> simp [h]

/-- Helper: a chained setter `x.attr = y.attr = i` writes exactly its two
target attributes. -/
theorem writesExactly_pair (t1 t2 : UnitAttr) :
    WritesExactly
      (fun i s => { s with attrs := fun a =>
        if a = t1 ∨ a = t2 then i else s.attrs a }) [t1, t2] := by
  intro i s
  refine ⟨rfl, fun a => ?_⟩
  simp only [List.mem_cons, List.not_mem_nil, or_false]

/-- C2 counterexample: not every registered parameter's setter mutates
exactly one unit attribute.  The parameter `HT & HC catalyst price` is
registered on the model, and applying its setter to the all-zero state with
sampled value 1 changes two attributes (the HT and HC catalyst stream
prices), so there is no single target attribute outside of which the state
is unchanged.  (`operation_hour` likewise writes both a unit attribute and
the system-level `operating_hours`.) -/
theorem set_HT_HC_catalyst_price_two_targets :
    ("HT & HC catalyst price", set_HT_HC_catalyst_price) ∈ model_parameters ∧
    ¬∃ t : UnitAttr, ∀ a : UnitAttr, a ≠ t →
        (set_HT_HC_catalyst_price 1 ⟨fun _ => 0, fun _ => 0⟩).attrs a =
          (⟨fun _ => 0, fun _ => 0⟩ : HTLState).attrs a := by
  constructor
  · repeat first
      | exact List.mem_cons_self _ _
      | apply List.mem_cons_of_mem
  · rintro ⟨t, hall⟩
    by_cases hT : t = UnitAttr.HT_ins2_price
    · subst hT
      have h2 := hall UnitAttr.HC_ins2_price (by decide)
      have h3 : (set_HT_HC_catalyst_price 1 ⟨fun _ => 0, fun _ => 0⟩).attrs
          UnitAttr.HC_ins2_price = 1 := rfl
      have hcontra := h3.symm.trans h2
      norm_num at hcontra
    · have h2 := hall UnitAttr.HT_ins2_price (fun he => hT he.symm)
      have h3 : (set_HT_HC_catalyst_price 1 ⟨fun _ => 0, fun _ => 0⟩).attrs
          UnitAttr.HT_ins2_price = 1 := rfl
      have hcontra := h3.symm.trans h2
      norm_num at hcontra

/-- C2 (amended): every parameter registered on the uncertainty model
writes its sampled value to a fixed set of target attributes and leaves
every other unit attribute, stream price, system-level attribute and LCA
characterization factor unchanged; that target set has exactly one element
for every parameter except `operation_hour` (which writes the WWTP
operation hours and the system operating hours) and
`HT & HC catalyst price` (which writes the HT and HC catalyst stream
prices), each of which writes exactly two.  Each parameter of the `set_LCA`
family writes exactly its own (item, indicator) characterization factor and
no unit attribute. -/
theorem model_parameters_write_targets :
    (∀ p ∈ model_parameters, ∃ ts : List UnitAttr, ts.Nodup ∧
        (ts.length =
          if p.1 = "operation_hour" ∨ p.1 = "HT & HC catalyst price" then 2 else 1) ∧
        WritesExactly p.2 ts) ∧
    (∀ (item CF : String) (i : ℚ) (s : HTLState),
        (set_LCA item CF i s).attrs = s.attrs ∧
        ∀ k, (set_LCA item CF i s).CFs k = if k = (item, CF) then i else s.CFs k) := by
  constructor
  · simp only [model_parameters, List.forall_mem_cons, List.not_mem_nil,
      false_implies, implies_true, and_true]
    refine ⟨?_, ?_, ?_, ?_, ?_, ?_, ?_, ?_, ?_, ?_, ?_, ?_, ?_, ?_, ?_, ?_, ?_, ?_, ?_, ?_, ?_, ?_, ?_, ?_, ?_, ?_, ?_, ?_, ?_, ?_, ?_, ?_, ?_, ?_, ?_, ?_, ?_, ?_, ?_, ?_, ?_, ?_, ?_, ?_, ?_, ?_, ?_, ?_, ?_, ?_, ?_, ?_, ?_, ?_, ?_, ?_, ?_, ?_, ?_, ?_, ?_, ?_, ?_, ?_, ?_, ?_, ?_, ?_, ?_, ?_, ?_, ?_, ?_, ?_, ?_⟩
    · exact ⟨[UnitAttr.WWTP_ww_2_dry_sludge], List.nodup_singleton _, by simp, writesExactly_single _⟩
    · exact ⟨[UnitAttr.WWTP_sludge_moisture], List.nodup_singleton _, by simp, writesExactly_single _⟩
    · exact ⟨[UnitAttr.WWTP_sludge_dw_ash], List.nodup_singleton _, by simp, writesExactly_single _⟩
    · exact ⟨[UnitAttr.WWTP_sludge_afdw_lipid], List.nodup_singleton _, by simp, writesExactly_single _⟩
    · exact ⟨[UnitAttr.WWTP_sludge_afdw_protein], List.nodup_singleton _, by simp, writesExactly_single _⟩
    · exact ⟨[UnitAttr.WWTP_lipid_2_C], List.nodup_singleton _, by simp, writesExactly_single _⟩
    · exact ⟨[UnitAttr.WWTP_protein_2_C], List.nodup_singleton _, by simp, writesExactly_single _⟩
    · exact ⟨[UnitAttr.WWTP_carbo_2_C], List.nodup_singleton _, by simp, writesExactly_single _⟩
    · exact ⟨[UnitAttr.WWTP_C_2_H], List.nodup_singleton _, by simp, writesExactly_single _⟩
    · exact ⟨[UnitAttr.WWTP_protein_2_N], List.nodup_singleton _, by simp, writesExactly_single _⟩
    · exact ⟨[UnitAttr.WWTP_N_2_P], List.nodup_singleton _, by simp, writesExactly_single _⟩
    · exact ⟨[UnitAttr.WWTP_operation_hours, UnitAttr.sysPSA_operating_hours], by decide, by simp, writesExactly_pair _ _⟩
    · exact ⟨[UnitAttr.H1_U], List.nodup_singleton _, by simp, writesExactly_single _⟩
    · exact ⟨[UnitAttr.HTL_lipid_2_biocrude], List.nodup_singleton _, by simp, writesExactly_single _⟩
    · exact ⟨[UnitAttr.HTL_protein_2_biocrude], List.nodup_singleton _, by simp, writesExactly_single _⟩
    · exact ⟨[UnitAttr.HTL_carbo_2_biocrude], List.nodup_singleton _, by simp, writesExactly_single _⟩
    · exact ⟨[UnitAttr.HTL_protein_2_gas], List.nodup_singleton _, by simp, writesExactly_single _⟩
    · exact ⟨[UnitAttr.HTL_carbo_2_gas], List.nodup_singleton _, by simp, writesExactly_single _⟩
    · exact ⟨[UnitAttr.HTL_biocrude_C_slope], List.nodup_singleton _, by simp, writesExactly_single _⟩
    · exact ⟨[UnitAttr.HTL_biocrude_C_intercept], List.nodup_singleton _, by simp, writesExactly_single _⟩
    · exact ⟨[UnitAttr.HTL_biocrude_N_slope], List.nodup_singleton _, by simp, writesExactly_single _⟩
    · exact ⟨[UnitAttr.HTL_biocrude_H_slope], List.nodup_singleton _, by simp, writesExactly_single _⟩
    · exact ⟨[UnitAttr.HTL_biocrude_H_intercept], List.nodup_singleton _, by simp, writesExactly_single _⟩
    · exact ⟨[UnitAttr.HTL_HTLaqueous_C_slope], List.nodup_singleton _, by simp, writesExactly_single _⟩
    · exact ⟨[UnitAttr.HTL_TOC_TC], List.nodup_singleton _, by simp, writesExactly_single _⟩
    · exact ⟨[UnitAttr.HTL_biochar_C_slope], List.nodup_singleton _, by simp, writesExactly_single _⟩
    · exact ⟨[UnitAttr.HTL_biocrude_moisture_content], List.nodup_singleton _, by simp, writesExactly_single _⟩
    · exact ⟨[UnitAttr.HTL_biochar_P_recovery_ratio], List.nodup_singleton _, by simp, writesExactly_single _⟩
    · exact ⟨[UnitAttr.AcidEx_acid_vol], List.nodup_singleton _, by simp, writesExactly_single _⟩
    · exact ⟨[UnitAttr.AcidEx_P_acid_recovery_ratio], List.nodup_singleton _, by simp, writesExactly_single _⟩
    · exact ⟨[UnitAttr.StruPre_target_pH], List.nodup_singleton _, by simp, writesExactly_single _⟩
    · exact ⟨[UnitAttr.StruPre_P_pre_recovery_ratio], List.nodup_singleton _, by simp, writesExactly_single _⟩
    · exact ⟨[UnitAttr.CHG_WHSV], List.nodup_singleton _, by simp, writesExactly_single _⟩
    · exact ⟨[UnitAttr.CHG_catalyst_lifetime], List.nodup_singleton _, by simp, writesExactly_single _⟩
    · exact ⟨[UnitAttr.CHG_gas_C_2_total_C], List.nodup_singleton _, by simp, writesExactly_single _⟩
    · exact ⟨[UnitAttr.MemDis_influent_pH], List.nodup_singleton _, by simp, writesExactly_single _⟩
    · exact ⟨[UnitAttr.MemDis_target_pH], List.nodup_singleton _, by simp, writesExactly_single _⟩
    · exact ⟨[UnitAttr.MemDis_m2_2_m3], List.nodup_singleton _, by simp, writesExactly_single _⟩
    · exact ⟨[UnitAttr.MemDis_Dm], List.nodup_singleton _, by simp, writesExactly_single _⟩
    · exact ⟨[UnitAttr.MemDis_porosity], List.nodup_singleton _, by simp, writesExactly_single _⟩
    · exact ⟨[UnitAttr.MemDis_thickness], List.nodup_singleton _, by simp, writesExactly_single _⟩
    · exact ⟨[UnitAttr.MemDis_tortuosity], List.nodup_singleton _, by simp, writesExactly_single _⟩
    · exact ⟨[UnitAttr.MemDis_Ka], List.nodup_singleton _, by simp, writesExactly_single _⟩
    · exact ⟨[UnitAttr.MemDis_capacity], List.nodup_singleton _, by simp, writesExactly_single _⟩
    · exact ⟨[UnitAttr.HT_WHSV], List.nodup_singleton _, by simp, writesExactly_single _⟩
    · exact ⟨[UnitAttr.HT_catalyst_lifetime], List.nodup_singleton _, by simp, writesExactly_single _⟩
    · exact ⟨[UnitAttr.HT_hydrogen_rxned_to_biocrude], List.nodup_singleton _, by simp, writesExactly_single _⟩
    · exact ⟨[UnitAttr.HT_PSA_efficiency], List.nodup_singleton _, by simp, writesExactly_single _⟩
    · exact ⟨[UnitAttr.HT_hydrogen_excess], List.nodup_singleton _, by simp, writesExactly_single _⟩
    · exact ⟨[UnitAttr.HT_hydrocarbon_ratio], List.nodup_singleton _, by simp, writesExactly_single _⟩
    · exact ⟨[UnitAttr.HC_WHSV], List.nodup_singleton _, by simp, writesExactly_single _⟩
    · exact ⟨[UnitAttr.HC_catalyst_lifetime], List.nodup_singleton _, by simp, writesExactly_single _⟩
    · exact ⟨[UnitAttr.HC_hydrogen_rxned_to_heavy_oil], List.nodup_singleton _, by simp, writesExactly_single _⟩
    · exact ⟨[UnitAttr.HC_hydrogen_excess], List.nodup_singleton _, by simp, writesExactly_single _⟩
    · exact ⟨[UnitAttr.HC_hydrocarbon_ratio], List.nodup_singleton _, by simp, writesExactly_single _⟩
    · exact ⟨[UnitAttr.HTL_CAPEX_factor], List.nodup_singleton _, by simp, writesExactly_single _⟩
    · exact ⟨[UnitAttr.CHG_CAPEX_factor], List.nodup_singleton _, by simp, writesExactly_single _⟩
    · exact ⟨[UnitAttr.HT_CAPEX_factor], List.nodup_singleton _, by simp, writesExactly_single _⟩
    · exact ⟨[UnitAttr.CHP_unit_CAPEX], List.nodup_singleton _, by simp, writesExactly_single _⟩
    · exact ⟨[UnitAttr.tea_IRR], List.nodup_singleton _, by simp, writesExactly_single _⟩
    · exact ⟨[UnitAttr.H2SO4_Tank_ins0_price], List.nodup_singleton _, by simp, writesExactly_single _⟩
    · exact ⟨[UnitAttr.StruPre_ins1_price], List.nodup_singleton _, by simp, writesExactly_single _⟩
    · exact ⟨[UnitAttr.StruPre_ins2_price], List.nodup_singleton _, by simp, writesExactly_single _⟩
    · exact ⟨[UnitAttr.StruPre_ins3_price], List.nodup_singleton _, by simp, writesExactly_single _⟩
    · exact ⟨[UnitAttr.StruPre_outs0_price], List.nodup_singleton _, by simp, writesExactly_single _⟩
    · exact ⟨[UnitAttr.RSP1_ins0_price], List.nodup_singleton _, by simp, writesExactly_single _⟩
    · exact ⟨[UnitAttr.MemDis_ins2_price], List.nodup_singleton _, by simp, writesExactly_single _⟩
    · exact ⟨[UnitAttr.MemDis_outs0_price], List.nodup_singleton _, by simp, writesExactly_single _⟩
    · exact ⟨[UnitAttr.MemDis_membrane_price], List.nodup_singleton _, by simp, writesExactly_single _⟩
    · exact ⟨[UnitAttr.CHG_ins1_price], List.nodup_singleton _, by simp, writesExactly_single _⟩
    · exact ⟨[UnitAttr.CHP_ins1_price], List.nodup_singleton _, by simp, writesExactly_single _⟩
    · exact ⟨[UnitAttr.HT_ins2_price, UnitAttr.HC_ins2_price], by decide, by simp, writesExactly_pair _ _⟩
    · exact ⟨[UnitAttr.FuelMixer_gasoline_price], List.nodup_singleton _, by simp, writesExactly_single _⟩
    · exact ⟨[UnitAttr.FuelMixer_diesel_price], List.nodup_singleton _, by simp, writesExactly_single _⟩
    · exact ⟨[UnitAttr.PowerUtility_price], List.nodup_singleton _, by simp, writesExactly_single _⟩
  · intro item CF i s
    exact ⟨rfl, fun k => rfl⟩

/-- Witness for `model_parameters_write_targets`: the first registered
parameter, `ww_2_dry_sludge`, writes exactly one attribute. -/
theorem model_parameters_write_targets_witness :
    ∃ ts : List UnitAttr, ts.Nodup ∧
      (ts.length =
        if ("ww_2_dry_sludge" : String) = "operation_hour" ∨
            ("ww_2_dry_sludge" : String) = "HT & HC catalyst price" then 2 else 1) ∧
      WritesExactly set_ww_2_dry_sludge ts :=
  model_parameters_write_targets.1 ("ww_2_dry_sludge", set_ww_2_dry_sludge)
    (List.mem_cons_self _ _)
